import Mathlib

/-!
# Impactsim: the status model of `src/web/physics.js`

A shallow embedding of the class `PhysicsEngine` of `src/web/physics.js`.

Conventions of the embedding.

* JavaScript numbers are modelled as exact rationals (`ℚ`): the arithmetic of the
  source is taken without rounding.  A `NaN` arises in the source only from arithmetic
  on `undefined`; the few fields that can hold one are options, with `none` for `NaN`.
* Where a property is an exact equality that the rounding of IEEE 754 doubles can
  break, it is settled on `calculateTemperatureDouble` and `calculateDamageDouble`,
  which round every operation to the nearest double as the source does.
* The object fields `this.currentEnvironment`, `this.rocket` and
  `this.simulationData` become fields of the record `PhysicsEngine`, which every
  method receives and returns explicitly.
* Reading a property of `null` or `undefined` throws a `TypeError` in the source;
  methods therefore return a `Completion`, which is either normal or a throw, and
  in both cases carries the state reached.
* The Matter.js engine and the transcendental functions of `Math` are external.
  They are collected in the record `Host`, over which all theorems quantify.
-/

namespace Impactsim

/-! ## Data model -/

/-- A plane vector such as `{ x: 0, y: -1 }`. -/
structure Vec where
  x : ℚ
  y : ℚ
  deriving DecidableEq

/-- The `temperature: { min, max }` entry of an environment. -/
structure TempRange where
  min : ℚ
  max : ℚ
  deriving DecidableEq

/-- One entry of `this.environments`.  The last three properties are present only in
some entries; `none` stands for a property that is not defined. -/
structure Environment where
  gravity : ℚ
  atmosphere : ℚ
  temperature : TempRange
  radiation : ℚ
  orbitalVelocity : Option ℚ
  escapeVelocity : Option ℚ
  cosmicRadiation : Option Bool
  deriving DecidableEq

/-- The argument `rocketData` of `createRocket`; `none` is a missing property. -/
structure RocketData where
  type : String
  weight : Option ℚ
  motorPower : Option ℚ
  model : Option String
  material : Option String
  hasControlSystem : Option Bool
  deriving DecidableEq

/-- The Matter.js body of the rocket together with the properties that `createRocket`
attaches to it.  `mass` is the mass of the body that Matter.js created; `thrust` is
`none` when the manual specification left `motorPower` undefined; `frictionAir` is `none`
when it is `NaN`. -/
structure Rocket where
  mass : ℚ
  frictionAir : Option ℚ
  position : Vec
  velocity : Vec
  thrust : Option ℚ
  fuelCapacity : ℚ
  currentFuel : ℚ
  material : String
  hasControlSystem : Bool
  deriving DecidableEq

/-- The record `this.simulationData`, the snapshot returned by every tick. -/
structure SimulationData where
  speed : ℚ
  temperature : ℚ
  fuel : ℚ
  damage : ℚ
  warnings : List String
  deriving DecidableEq

/-- One call of `Matter.Body.applyForce(body, position, force)`.  The force is `none`
when it was computed from an undefined thrust (a `NaN` in the source). -/
structure ForceCall where
  position : Vec
  force : Option Vec
  deriving DecidableEq

/-- The vector `engine.world.gravity`; the component `y` is `none` when it is `NaN`. -/
structure Gravity where
  x : ℚ
  y : Option ℚ
  deriving DecidableEq

/-- A value that `this.environments[name]` can yield other than `undefined`: an entry of
the table, or a property that the table object inherits from `Object.prototype` (for
instance the function `toString`), on which none of the properties of an environment is
defined. -/
inductive EnvRef where
  | entry (env : Environment)
  | inherited (name : String)
  deriving DecidableEq

/-- The state of a `PhysicsEngine` object.  `gravity` is `engine.world.gravity`,
`forces` is the sequence of forces handed to Matter.js so far, `currentEnvironment` is
`none` while it is `null` or `undefined`. -/
structure PhysicsEngine where
  gravity : Gravity
  forces : List ForceCall
  currentEnvironment : Option EnvRef
  rocket : Option Rocket
  simulationData : SimulationData
  deriving DecidableEq

/-- The outcome of a method call: normal completion with a value, or a thrown
`TypeError`; both carry the state at that point. -/
inductive Completion (α : Type) where
  | normal (state : PhysicsEngine) (value : α)
  | throwTypeError (state : PhysicsEngine)

/-- The state carried by a completion. -/
def Completion.state {α : Type} : Completion α → PhysicsEngine
  | .normal s _ => s
  | .throwTypeError s => s

/-- Whether a completion is normal. -/
def Completion.isNormal {α : Type} : Completion α → Bool
  | .normal _ _ => true
  | .throwTypeError _ => false

/-- External functions used by the source: `Math.sqrt`, the sine (`sinPi x` stands for
`Math.sin(x * Math.PI)`), and `Matter.Engine.update`, which yields the position and
the velocity of the rocket body after integrating for the given milliseconds; the engine
sees the gravity, the forces applied and the body, and nothing else of the state. -/
structure Host where
  sqrt : ℚ → ℚ
  sinPi : ℚ → ℚ
  engineUpdate : Gravity → List ForceCall → Option Rocket → ℚ → Vec × Vec

/-! ## Constants and the environment catalog (constructor) -/

def EARTH_GRAVITY : ℚ := 9.81
def MOON_GRAVITY : ℚ := 1.62
def MARS_GRAVITY : ℚ := 3.71
def SPACE_GRAVITY : ℚ := 0.0

/-- Entry `'LEO'` of `this.environments`. -/
def envLEO : Environment :=
  { gravity := EARTH_GRAVITY * 0.9, atmosphere := 1e-12,
    temperature := { min := -157, max := 121 }, radiation := 0.3,
    orbitalVelocity := some 7800, escapeVelocity := none, cosmicRadiation := none }

/-- Entry `'Ay'` of `this.environments`. -/
def envAy : Environment :=
  { gravity := MOON_GRAVITY, atmosphere := 0.0,
    temperature := { min := -173, max := 127 }, radiation := 0.8,
    orbitalVelocity := none, escapeVelocity := some 2380, cosmicRadiation := none }

/-- Entry `'Mars'` of `this.environments`. -/
def envMars : Environment :=
  { gravity := MARS_GRAVITY, atmosphere := 0.02,
    temperature := { min := -87, max := -5 }, radiation := 0.6,
    orbitalVelocity := none, escapeVelocity := some 5030, cosmicRadiation := none }

/-- Entry `'Boşluk'` of `this.environments`. -/
def envBosluk : Environment :=
  { gravity := SPACE_GRAVITY, atmosphere := 0.0,
    temperature := { min := -270, max := -200 }, radiation := 1.0,
    orbitalVelocity := none, escapeVelocity := none, cosmicRadiation := some true }

/-- The own properties of the table `this.environments`, as a lookup by key. -/
def environments (name : String) : Option Environment :=
  if name = "LEO" then some envLEO
  else if name = "Ay" then some envAy
  else if name = "Mars" then some envMars
  else if name = "Boşluk" then some envBosluk
  else none

/-- The four entries of the catalog. -/
def catalog : List Environment := [envLEO, envAy, envMars, envBosluk]

/-- The four keys of the catalog. -/
def catalogKeys : List String := ["LEO", "Ay", "Mars", "Boşluk"]

/-- The names of the properties of `Object.prototype` (ECMAScript, Annex B included),
which the object literal `this.environments` inherits. -/
def objectPrototypeKeys : List String :=
  ["constructor", "hasOwnProperty", "isPrototypeOf", "propertyIsEnumerable",
    "toLocaleString", "toString", "valueOf", "__proto__", "__defineGetter__",
    "__defineSetter__", "__lookupGetter__", "__lookupSetter__"]

/-- The expression `this.environments[name]`: an entry of the table, else a property
inherited from `Object.prototype`, else `undefined`. -/
def environmentsLookup (name : String) : Option EnvRef :=
  match environments name with
  | some env => some (.entry env)
  | none => if name ∈ objectPrototypeKeys then some (.inherited name) else none

/-- The state built by the constructor. -/
def PhysicsEngine.initial : PhysicsEngine :=
  { gravity := { x := 0, y := some 1 }, forces := [],
    currentEnvironment := none, rocket := none,
    simulationData := { speed := 0, temperature := 20, fuel := 100, damage := 0, warnings := [] } }

/-! ## Methods -/

/-- Method `initializeEnvironment(environmentName)`.  When the lookup yields `undefined`
the field is set to `undefined` and reading `.gravity` throws.  On an inherited property
`.gravity` is `undefined` and `undefined / 100` is `NaN`. -/
def initializeEnvironment (s : PhysicsEngine) (environmentName : String) : Completion Unit :=
  let s1 := { s with currentEnvironment := environmentsLookup environmentName }
  match s1.currentEnvironment with
  | none => .throwTypeError s1
  | some (.entry env) =>
    let s2 := { s1 with gravity := { x := s1.gravity.x, y := some (env.gravity / 100) } }
    let s3 := { s2 with gravity := { x := 0, y := s2.gravity.y } }
    .normal s3 ()
  | some (.inherited _) =>
    let s2 := { s1 with gravity := { x := s1.gravity.x, y := none } }
    let s3 := { s2 with gravity := { x := 0, y := s2.gravity.y } }
    .normal s3 ()

/-- The mass and thrust chosen at the top of `createRocket`. -/
def presetMassThrust (rocketData : RocketData) : Option ℚ × Option ℚ :=
  let mass : Option ℚ := some 100
  let thrust : Option ℚ := some 1000
  if rocketData.type = "manual" then
    (rocketData.weight, rocketData.motorPower)
  else if rocketData.model = some "Mini CubeSat" then
    (some 1.3, some 0.1)
  else if rocketData.model = some "Deneysel Roket" then
    (some 25, some 1000)
  else if rocketData.model = some "İletişim Uydusu" then
    (some 150, some 500)
  else
    (mass, thrust)

/-- The JavaScript expression `rocketData.material || 'Alüminyum'`. -/
def materialOrDefault (material : Option String) : String :=
  match material with
  | none => "Alüminyum"
  | some m => if m = "" then "Alüminyum" else m

/-- The option `frictionAir: this.currentEnvironment.atmosphere * 0.001` of the body;
on an inherited property `.atmosphere` is `undefined` and the product is `NaN`. -/
def frictionAirOf : EnvRef → Option ℚ
  | .entry env => some (env.atmosphere * 0.001)
  | .inherited _ => none

/-- The mass of the body that `Matter.Bodies.rectangle(400, 300, 20, 60, { mass, … })`
creates.  Matter.js takes `options.mass || body.mass`: the mass handed over when it is
truthy (defined and not 0), and otherwise the mass it derived from the shape, the default
density 0.001 times the area 20 × 60. -/
def bodyMass (mass : Option ℚ) : ℚ :=
  match mass with
  | none => 0.001 * (20 * 60)
  | some m => if m = 0 then 0.001 * (20 * 60) else m

/-- Method `createRocket(rocketData)`.  The body is created at (400, 300) and at rest. -/
def createRocket (s : PhysicsEngine) (rocketData : RocketData) : Completion Rocket :=
  let mt := presetMassThrust rocketData
  match s.currentEnvironment with
  | none => .throwTypeError s
  | some ref =>
    let rocket : Rocket :=
      { mass := bodyMass mt.1, frictionAir := frictionAirOf ref,
        position := { x := 400, y := 300 }, velocity := { x := 0, y := 0 },
        thrust := mt.2, fuelCapacity := 100, currentFuel := 100,
        material := materialOrDefault rocketData.material,
        hasControlSystem := rocketData.hasControlSystem.getD false }
    .normal { s with rocket := some rocket } rocket

/-- Method `calculateFuelConsumption(thrustIntensity)`, for the current environment. -/
def calculateFuelConsumption (env : Environment) (thrustIntensity : ℚ) : ℚ :=
  let baseConsumption := 0.1 * thrustIntensity
  let baseConsumption :=
    if env.atmosphere > 0 then baseConsumption * (1 + env.atmosphere * 10)
    else baseConsumption
  baseConsumption

/-- The call `this.calculateFuelConsumption(intensity)` on the current environment; on
an inherited property `.atmosphere` is `undefined`, the comparison `undefined > 0` is
false and the base consumption is returned. -/
def fuelConsumptionOf (ref : EnvRef) (thrustIntensity : ℚ) : ℚ :=
  match ref with
  | .entry env => calculateFuelConsumption env thrustIntensity
  | .inherited _ => 0.1 * thrustIntensity

/-- Method `applyThrust(direction, intensity)`.  The defaults of the source are
`direction = { x: 0, y: -1 }` and `intensity = 1.0`. -/
def applyThrust (s : PhysicsEngine) (direction : Vec) (intensity : ℚ) : Completion Unit :=
  match s.rocket with
  | none => .normal s ()
  | some rocket =>
    if rocket.currentFuel ≤ 0 then .normal s ()
    else
      let thrustForce := rocket.thrust.map (fun t => t * intensity * 0.001)
      let call : ForceCall :=
        { position := rocket.position,
          force := thrustForce.map
            (fun f => { x := direction.x * f, y := direction.y * f }) }
      let s1 := { s with forces := s.forces ++ [call] }
      match s1.currentEnvironment with
      | none => .throwTypeError s1
      | some ref =>
        let fuelConsumption := fuelConsumptionOf ref intensity
        let burnt : Rocket :=
          { rocket with currentFuel := max 0 (rocket.currentFuel - fuelConsumption) }
        .normal { s1 with rocket := some burnt } ()

/-- JavaScript truthiness of an optional number. -/
def truthyNum (v : Option ℚ) : Bool :=
  match v with
  | none => false
  | some q => decide (q ≠ 0)

/-- Method `calculateTemperature(progress, isEngineRunning)`. -/
def calculateTemperature (host : Host) (env : Environment) (rocket : Rocket)
    (progress : ℚ) (isEngineRunning : Bool) : ℚ :=
  let tempRange := env.temperature
  let baseTemp := tempRange.min + (tempRange.max - tempRange.min) * progress
  let baseTemp :=
    if isEngineRunning = true ∧ rocket.currentFuel > 0 then baseTemp + (50 + progress * 100)
    else baseTemp
  let baseTemp :=
    if truthyNum env.orbitalVelocity = true then
      let solarCycle := host.sinPi (progress * 4) * 30
      baseTemp + solarCycle
    else baseTemp
  let baseTemp :=
    if env.atmosphere > 0 then baseTemp + env.atmosphere * 1000
    else baseTemp
  baseTemp

/-- The magnitude `Math.sqrt(velocity.x ** 2 + velocity.y ** 2)` of the rocket velocity. -/
def velocityMagnitude (host : Host) (rocket : Rocket) : ℚ :=
  host.sqrt (rocket.velocity.x ^ 2 + rocket.velocity.y ^ 2)

/-- Method `calculateDamage(temperature, progress, deltaTime)`. -/
def calculateDamage (host : Host) (env : Environment) (rocket : Rocket)
    (temperature progress deltaTime : ℚ) : ℚ :=
  let damageRate : ℚ := 0
  let damageRate :=
    if temperature > 150 then damageRate + (temperature - 150) * 0.01
    else if temperature < -200 then damageRate + (-200 - temperature) * 0.005
    else damageRate
  let damageRate := damageRate + env.radiation * 0.1 * progress
  let damageRate :=
    if rocket.material = "Karbonfiber" then damageRate * 0.6
    else if rocket.material = "Kompozit" then damageRate * 0.8
    else damageRate
  let damageRate :=
    if rocket.hasControlSystem = true then damageRate * 0.7
    else damageRate
  let velocity := velocityMagnitude host rocket
  let damageRate :=
    if velocity > 100 then damageRate + (velocity - 100) * 0.001
    else damageRate
  damageRate * deltaTime

/-- The function `Math.round`: the nearest integer, halves rounded up. -/
def mathRound (x : ℚ) : ℤ := ⌊x + 1 / 2⌋

/-- Text `KRİTİK: Sistem Aşırı Isındı (…°C)`. -/
def overheatCritical (temperature : ℚ) : String :=
  "KRİTİK: Sistem Aşırı Isındı (" ++ toString (mathRound temperature) ++ "°C)"

/-- Text `UYARI: Motor Yüksek Sıcaklık (…°C)`. -/
def overheatWarning (temperature : ℚ) : String :=
  "UYARI: Motor Yüksek Sıcaklık (" ++ toString (mathRound temperature) ++ "°C)"

/-- Text `KRİTİK: Sistem Donma Riski (…°C)`. -/
def freezeCritical (temperature : ℚ) : String :=
  "KRİTİK: Sistem Donma Riski (" ++ toString (mathRound temperature) ++ "°C)"

/-- Text `UYARI: Düşük Sıcaklık Riski (…°C)`. -/
def freezeWarning (temperature : ℚ) : String :=
  "UYARI: Düşük Sıcaklık Riski (" ++ toString (mathRound temperature) ++ "°C)"

/-- Text `KRİTİK: Yakıt Kritik Seviyede (…%)`. -/
def fuelCritical (fuel : ℚ) : String :=
  "KRİTİK: Yakıt Kritik Seviyede (" ++ toString (mathRound fuel) ++ "%)"

/-- Text `UYARI: Yakıt Seviyesi Düşük (…%)`. -/
def fuelWarning (fuel : ℚ) : String :=
  "UYARI: Yakıt Seviyesi Düşük (" ++ toString (mathRound fuel) ++ "%)"

/-- Text `KRİTİK: Sistem Arızası Riski (…% hasar)`. -/
def damageCritical (damage : ℚ) : String :=
  "KRİTİK: Sistem Arızası Riski (" ++ toString (mathRound damage) ++ "% hasar)"

/-- Text `UYARI: Yüksek Hasar Seviyesi (…%)`. -/
def damageWarning (damage : ℚ) : String :=
  "UYARI: Yüksek Hasar Seviyesi (" ++ toString (mathRound damage) ++ "%)"

/-- Text of the speed warning. -/
def speedWarning : String := "UYARI: Yüksek Hız - Kontrol Kaybı Riski"

/-- Text of the radiation warning. -/
def radiationWarning : String := "UYARI: Yüksek Radyasyon Seviyesi"

/-- Text of the cosmic-radiation warning. -/
def cosmicWarning : String := "UYARI: Kozmik Radyasyon Tespit Edildi"

/-- Method `generateWarnings(temperature, fuel, damage, speed)`; `warnings.push(m)` is
`warnings ++ [m]`. -/
def generateWarnings (env : Environment) (temperature fuel damage speed : ℚ) : List String :=
  let warnings : List String := []
  let warnings :=
    if temperature > 200 then warnings ++ [overheatCritical temperature]
    else if temperature > 100 then warnings ++ [overheatWarning temperature]
    else warnings
  let warnings :=
    if temperature < -250 then warnings ++ [freezeCritical temperature]
    else if temperature < -200 then warnings ++ [freezeWarning temperature]
    else warnings
  let warnings :=
    if fuel < 10 then warnings ++ [fuelCritical fuel]
    else if fuel < 25 then warnings ++ [fuelWarning fuel]
    else warnings
  let warnings :=
    if damage > 80 then warnings ++ [damageCritical damage]
    else if damage > 50 then warnings ++ [damageWarning damage]
    else warnings
  let warnings :=
    if speed > 200 then warnings ++ [speedWarning]
    else warnings
  let warnings :=
    if env.radiation > 0.7 then warnings ++ [radiationWarning]
    else warnings
  let warnings :=
    if env.cosmicRadiation = some true then warnings ++ [cosmicWarning]
    else warnings
  warnings

/-- Method `updateSimulation(progress, deltaTime, isEngineRunning)`; the default of
`isEngineRunning` in the source is `false`.  On an inherited property `.temperature` is
`undefined`, and `calculateTemperature` throws when it reads `tempRange.min`. -/
def updateSimulation (host : Host) (s : PhysicsEngine) (progress deltaTime : ℚ)
    (isEngineRunning : Bool) : Completion SimulationData :=
  let kin := host.engineUpdate s.gravity s.forces s.rocket (deltaTime * 1000)
  match s.rocket with
  | none => .normal s s.simulationData
  | some body =>
    let rocket : Rocket := { body with position := kin.1, velocity := kin.2 }
    let s := { s with rocket := some rocket }
    let velocity := velocityMagnitude host rocket
    let s := { s with simulationData := { s.simulationData with speed := velocity * 100 } }
    match s.currentEnvironment with
    | none => .throwTypeError s
    | some (.inherited _) => .throwTypeError s
    | some (.entry env) =>
      let s := { s with simulationData :=
        { s.simulationData with
          temperature := calculateTemperature host env rocket progress isEngineRunning } }
      let s := { s with simulationData := { s.simulationData with fuel := rocket.currentFuel } }
      let damageIncrease :=
        calculateDamage host env rocket s.simulationData.temperature progress deltaTime
      let s := { s with simulationData :=
        { s.simulationData with damage := min 100 (s.simulationData.damage + damageIncrease) } }
      let s := { s with simulationData :=
        { s.simulationData with
          warnings := generateWarnings env s.simulationData.temperature s.simulationData.fuel
            s.simulationData.damage s.simulationData.speed } }
      .normal s s.simulationData

/-! ## Sessions: sequences of calls -/

/-- One call made by the page on the engine object. -/
inductive Event where
  | thrust (direction : Vec) (intensity : ℚ)
  | tick (progress deltaTime : ℚ) (isEngineRunning : Bool)

/-- The state after one call; a thrown error leaves the state reached at the throw. -/
def step (host : Host) (s : PhysicsEngine) : Event → PhysicsEngine
  | .thrust direction intensity => (applyThrust s direction intensity).state
  | .tick progress deltaTime isEngineRunning =>
    (updateSimulation host s progress deltaTime isEngineRunning).state

/-- Whether one call completes without throwing. -/
def stepCompletes (host : Host) (s : PhysicsEngine) : Event → Bool
  | .thrust direction intensity => (applyThrust s direction intensity).isNormal
  | .tick progress deltaTime isEngineRunning =>
    (updateSimulation host s progress deltaTime isEngineRunning).isNormal

/-- The states after each call of a sequence of calls, in order. -/
def trace (host : Host) (s : PhysicsEngine) : List Event → List PhysicsEngine
  | [] => []
  | e :: es => step host s e :: trace host (step host s e) es

/-- The current fuel of the rocket of a state, if there is a rocket. -/
def fuelOf (s : PhysicsEngine) : Option ℚ := s.rocket.map (fun r => r.currentFuel)

/-! ## Reading the messages -/

/-- The eleven message templates of `generateWarnings`. -/
inductive Kind where
  | overheatCritical | overheatWarning | freezeCritical | freezeWarning
  | fuelCritical | fuelWarning | damageCritical | damageWarning
  | speed | radiation | cosmic
  deriving DecidableEq

/-- The categories of the warning table, in the order of emission. -/
inductive Category where
  | temperature | fuel | damage | speed | radiation | cosmic
  deriving DecidableEq

/-- Position of a category in the order Overheat/Freeze, Fuel, Damage, Speed, Radiation,
Cosmic. -/
def Category.rank : Category → Nat
  | .temperature => 0
  | .fuel => 1
  | .damage => 2
  | .speed => 3
  | .radiation => 4
  | .cosmic => 5

/-- The category of a message template. -/
def Kind.category : Kind → Category
  | .overheatCritical => .temperature
  | .overheatWarning => .temperature
  | .freezeCritical => .temperature
  | .freezeWarning => .temperature
  | .fuelCritical => .fuel
  | .fuelWarning => .fuel
  | .damageCritical => .damage
  | .damageWarning => .damage
  | .speed => .speed
  | .radiation => .radiation
  | .cosmic => .cosmic

/-- Whether `p` is an initial segment of the text `w`. -/
def startsWith (w p : String) : Bool := p.data.isPrefixOf w.data

/-- The template of a message, recognised by the fixed text with which it begins. -/
def kindOf (w : String) : Option Kind :=
  if startsWith w "KRİTİK: Sistem Aşırı Isındı (" then some .overheatCritical
  else if startsWith w "UYARI: Motor Yüksek Sıcaklık (" then some .overheatWarning
  else if startsWith w "KRİTİK: Sistem Donma Riski (" then some .freezeCritical
  else if startsWith w "UYARI: Düşük Sıcaklık Riski (" then some .freezeWarning
  else if startsWith w "KRİTİK: Yakıt Kritik Seviyede (" then some .fuelCritical
  else if startsWith w "UYARI: Yakıt Seviyesi Düşük (" then some .fuelWarning
  else if startsWith w "KRİTİK: Sistem Arızası Riski (" then some .damageCritical
  else if startsWith w "UYARI: Yüksek Hasar Seviyesi (" then some .damageWarning
  else if startsWith w "UYARI: Yüksek Hız - Kontrol Kaybı Riski" then some .speed
  else if startsWith w "UYARI: Yüksek Radyasyon Seviyesi" then some .radiation
  else if startsWith w "UYARI: Kozmik Radyasyon Tespit Edildi" then some .cosmic
  else none

/-- The category of a message. -/
def categoryOf (w : String) : Option Category := (kindOf w).map Kind.category

/-- Whether a message is marked critical (it begins with `KRİTİK`). -/
def isCritical (w : String) : Bool := startsWith w "KRİTİK"

/-! ## A concrete host for examples -/

/-- A host used in the examples below: the rocket body keeps its position and velocity,
the square root is the rational one (exact on squares of rationals), and the sine is taken
at whole multiples of π only, where it is 0. -/
def restHost : Host :=
  { sqrt := Rat.sqrt
    sinPi := fun _ => 0
    engineUpdate := fun _ _ rocket _ =>
      match rocket with
      | none => ({ x := 0, y := 0 }, { x := 0, y := 0 })
      | some r => (r.position, r.velocity) }

/-- The preset specification `Mini CubeSat` with no optional property. -/
def miniCubeSat : RocketData :=
  { type := "preset", weight := none, motorPower := none, model := some "Mini CubeSat",
    material := none, hasControlSystem := none }

/-- The state after `initializeEnvironment(name)` and `createRocket(rocketData)` on a new
engine object. -/
def sessionOf (name : String) (rocketData : RocketData) : PhysicsEngine :=
  (createRocket (initializeEnvironment PhysicsEngine.initial name).state rocketData).state

/-! ## The terms of the damage rate, as the specification names them -/

/-- Heat damage: `(temperature − 150) × 0.01` if temperature > 150. -/
def heatTerm (temperature : ℚ) : ℚ :=
  if temperature > 150 then (temperature - 150) * 0.01 else 0

/-- Cold damage: `(−200 − temperature) × 0.005` if temperature < −200. -/
def coldTerm (temperature : ℚ) : ℚ :=
  if temperature < -200 then (-200 - temperature) * 0.005 else 0

/-- Radiation damage: `environment.radiation × 0.1 × progress`. -/
def radiationTerm (env : Environment) (progress : ℚ) : ℚ :=
  env.radiation * 0.1 * progress

/-- Overspeed damage: `(speed − 100) × 0.001` if the raw speed is above 100. -/
def overspeedTerm (velocity : ℚ) : ℚ :=
  if velocity > 100 then (velocity - 100) * 0.001 else 0

/-- Material scaling: Karbonfiber 0.6, Kompozit 0.8, otherwise 1. -/
def materialFactor (material : String) : ℚ :=
  if material = "Karbonfiber" then 0.6 else if material = "Kompozit" then 0.8 else 1

/-- Control-system scaling: 0.7 when present, otherwise 1. -/
def controlFactor (hasControlSystem : Bool) : ℚ :=
  if hasControlSystem = true then 0.7 else 1

/-- The increment as the specification composes it: the four terms are added and the sum
is scaled by material and control system. -/
def specDamageIncrement (host : Host) (env : Environment) (rocket : Rocket)
    (temperature progress deltaTime : ℚ) : ℚ :=
  (heatTerm temperature + coldTerm temperature + radiationTerm env progress
      + overspeedTerm (velocityMagnitude host rocket))
    * materialFactor rocket.material * controlFactor rocket.hasControlSystem * deltaTime

/-- The fuel after a thrust call as the specification words it: the rate times the
elapsed time is subtracted and the result is clamped at 0. -/
def specFuelAfterThrust (env : Environment) (fuel intensity elapsedTime : ℚ) : ℚ :=
  max 0 (fuel - calculateFuelConsumption env intensity * elapsedTime)

/-! ## The blocks of `generateWarnings` -/

/-- Messages of the overheat block. -/
def overheatPart (temperature : ℚ) : List String :=
  if temperature > 200 then [overheatCritical temperature]
  else if temperature > 100 then [overheatWarning temperature]
  else []

/-- Messages of the freeze block. -/
def freezePart (temperature : ℚ) : List String :=
  if temperature < -250 then [freezeCritical temperature]
  else if temperature < -200 then [freezeWarning temperature]
  else []

/-- Messages of the fuel block. -/
def fuelPart (fuel : ℚ) : List String :=
  if fuel < 10 then [fuelCritical fuel]
  else if fuel < 25 then [fuelWarning fuel]
  else []

/-- Messages of the damage block. -/
def damagePart (damage : ℚ) : List String :=
  if damage > 80 then [damageCritical damage]
  else if damage > 50 then [damageWarning damage]
  else []

/-- Messages of the speed block. -/
def speedPart (speed : ℚ) : List String :=
  if speed > 200 then [speedWarning] else []

/-- Messages of the radiation block. -/
def radiationPart (env : Environment) : List String :=
  if env.radiation > 0.7 then [radiationWarning] else []

/-- Messages of the cosmic-radiation block. -/
def cosmicPart (env : Environment) : List String :=
  if env.cosmicRadiation = some true then [cosmicWarning] else []

/-! ## Auxiliary definitions for statements about sessions -/

/-- The rocket body after `Matter.Engine.update` in a tick of `deltaTime` seconds. -/
def movedRocket (host : Host) (s : PhysicsEngine) (body : Rocket) (deltaTime : ℚ) : Rocket :=
  { body with
    position := (host.engineUpdate s.gravity s.forces s.rocket (deltaTime * 1000)).1,
    velocity := (host.engineUpdate s.gravity s.forces s.rocket (deltaTime * 1000)).2 }

/-- Whether every call of a sequence completes without throwing. -/
def allComplete (host : Host) (s : PhysicsEngine) : List Event → Bool
  | [] => true
  | e :: es => stepCompletes host s e && allComplete host (step host s e) es

/-- Ticks within the documented ranges: progress in [0, 1] and elapsed time at least 0.
Thrust calls are not restricted. -/
def Event.tickInRange : Event → Prop
  | .thrust _ _ => True
  | .tick progress deltaTime _ => 0 ≤ progress ∧ progress ≤ 1 ∧ 0 ≤ deltaTime

/-- Thrust calls within the documented range: intensity in [0, 1].  Ticks are not
restricted. -/
def Event.thrustInRange : Event → Prop
  | .thrust _ intensity => 0 ≤ intensity ∧ intensity ≤ 1
  | .tick _ _ _ => True

/-- The relation between the damage before and after one call that the specification
requires: not decreasing, and within [0, 100] afterwards. -/
def DamageStep (a b : PhysicsEngine) : Prop :=
  a.simulationData.damage ≤ b.simulationData.damage
    ∧ 0 ≤ b.simulationData.damage ∧ b.simulationData.damage ≤ 100

/-- The relation between the fuel before and after one call that the specification
requires: not increasing, and within [0, 100] afterwards. -/
def FuelStep (a b : PhysicsEngine) : Prop :=
  ∃ fa fb, fuelOf a = some fa ∧ fuelOf b = some fb ∧ fb ≤ fa ∧ 0 ≤ fb ∧ fb ≤ 100

/-- A rocket of Karbonfiber without control system that moves at 200 engine units. -/
def fastCarbonRocket : Rocket :=
  { mass := 25, frictionAir := some 0, position := { x := 400, y := 300 },
    velocity := { x := 200, y := 0 }, thrust := some 1000, fuelCapacity := 100,
    currentFuel := 100, material := "Karbonfiber", hasControlSystem := false }

/-- Position of the category of a message in the order of emission (0 for a text that is
not a message of `generateWarnings`). -/
def rankOf (w : String) : Nat :=
  match categoryOf w with
  | some c => c.rank
  | none => 0

/-- A state in Ay whose rocket has used up its fuel. -/
def emptyTankState : PhysicsEngine :=
  { gravity := { x := 0, y := some (MOON_GRAVITY / 100) }, forces := [],
    currentEnvironment := some (.entry envAy),
    rocket := some
      { mass := 1.3, frictionAir := some 0, position := { x := 400, y := 300 },
        velocity := { x := 0, y := 0 }, thrust := some 0.1, fuelCapacity := 100,
        currentFuel := 0, material := "Alüminyum", hasControlSystem := false },
    simulationData := PhysicsEngine.initial.simulationData }

/-- The names of the presets that `createRocket` recognises. -/
def presetModels : List String := ["Mini CubeSat", "Deneysel Roket", "İletişim Uydusu"]

/-- A preset specification with a model name that is not in the table. -/
def unknownPreset : RocketData :=
  { type := "preset", weight := none, motorPower := none, model := some "Falcon 9",
    material := none, hasControlSystem := none }

/-- A manual specification with a negative weight and no motor power at all. -/
def badManual : RocketData :=
  { type := "manual", weight := some (-5), motorPower := some 0, model := none,
    material := none, hasControlSystem := none }

/-- A rocket of the default material without control system, at rest. -/
def restingRocket : Rocket :=
  { mass := 25, frictionAir := some 0, position := { x := 400, y := 300 },
    velocity := { x := 0, y := 0 }, thrust := some 1000, fuelCapacity := 100,
    currentFuel := 100, material := "Alüminyum", hasControlSystem := false }

/-- A state in Ay whose rocket moves at 200 engine units. -/
def fastState : PhysicsEngine :=
  { gravity := { x := 0, y := some (MOON_GRAVITY / 100) }, forces := [],
    currentEnvironment := some (.entry envAy), rocket := some fastCarbonRocket,
    simulationData := PhysicsEngine.initial.simulationData }

/-- The value that a method call returns, if it completes. -/
def Completion.returned {α : Type} : Completion α → Option α
  | .normal _ v => some v
  | .throwTypeError _ => none

/-- Two states that agree on every field except, possibly, the stored warnings. -/
def DifferOnlyInWarnings (a b : PhysicsEngine) : Prop :=
  a.gravity = b.gravity ∧ a.forces = b.forces
    ∧ a.currentEnvironment = b.currentEnvironment ∧ a.rocket = b.rocket
    ∧ a.simulationData.speed = b.simulationData.speed
    ∧ a.simulationData.temperature = b.simulationData.temperature
    ∧ a.simulationData.fuel = b.simulationData.fuel
    ∧ a.simulationData.damage = b.simulationData.damage

/-- The call `this.generateWarnings(temperature, fuel, damage, speed)` on a state.  The
method fills a local array and assigns to no field, so the state it leaves is the state it
found.  It throws when it reads `.radiation` while the current environment is `null` or
`undefined`; on an inherited property `.radiation` and `.cosmicRadiation` are `undefined`
and both tests are false. -/
def generateWarningsCall (s : PhysicsEngine) (temperature fuel damage speed : ℚ) :
    Completion (List String) :=
  match s.currentEnvironment with
  | none => .throwTypeError s
  | some (.entry env) => .normal s (generateWarnings env temperature fuel damage speed)
  | some (.inherited _) =>
    .normal s
      (overheatPart temperature ++ freezePart temperature ++ fuelPart fuel
        ++ damagePart damage ++ speedPart speed)

/-- A new engine object whose snapshot holds a warning that no tick computed. -/
def staleState : PhysicsEngine :=
  { PhysicsEngine.initial with
    simulationData := { PhysicsEngine.initial.simulationData with warnings := ["stale"] } }

/-! ## Double-precision arithmetic

The source computes in IEEE 754 binary64.  The definitions above take its arithmetic
exactly; the ones below round every operation as the source does.  A double is
represented by the rational number that it is. -/

/-- The integer nearest to `p / q`, ties going to the even one. -/
def divRoundEven (p q : Nat) : Nat :=
  let k := p / q
  let r := p % q
  if 2 * r < q then k
  else if q < 2 * r then k + 1
  else if k % 2 = 0 then k else k + 1

/-- The number of binary digits of `n`, computed with at most `fuel` halvings. -/
def bitLength : Nat → Nat → Nat
  | 0, _ => 0
  | fuel + 1, n => if n = 0 then 0 else bitLength fuel (n / 2) + 1

/-- The exponent `e` with `2 ^ e ≤ p / q < 2 ^ (e + 1)`, for positive `p` and `q`. -/
def binaryExponent (p q : Nat) : Int :=
  let e0 : Int := (bitLength p p : Int) - (bitLength q q : Int)
  if q * 2 ^ e0.toNat ≤ p * 2 ^ (-e0).toNat then e0 else e0 - 1

/-- The double nearest to the rational `x`, ties going to the even significand, with
gradual underflow.  Overflow to infinity is not represented. -/
def roundToDouble (x : ℚ) : ℚ :=
  if x.num = 0 then 0
  else
    let p := x.num.natAbs
    let q := x.den
    let e := max (binaryExponent p q) (-1022)
    let s : Int := e - 52
    let m := divRoundEven (p * 2 ^ (-s).toNat) (q * 2 ^ s.toNat)
    let r : ℚ := (m : ℚ) * (2 : ℚ) ^ s.toNat / (2 : ℚ) ^ (-s).toNat
    if x.num < 0 then -r else r

/-- The sum of two doubles, as `+` computes it. -/
def addDouble (x y : ℚ) : ℚ := roundToDouble (x + y)

/-- The difference of two doubles, as `-` computes it. -/
def subDouble (x y : ℚ) : ℚ := roundToDouble (x - y)

/-- The product of two doubles, as `*` computes it. -/
def mulDouble (x y : ℚ) : ℚ := roundToDouble (x * y)

/-- Method `calculateTemperature(progress, isEngineRunning)` in double arithmetic.  The
numbers of the environment table and the literals of the method are the doubles that
their decimal numerals denote; `progress` is a double. -/
def calculateTemperatureDouble (host : Host) (env : Environment) (rocket : Rocket)
    (progress : ℚ) (isEngineRunning : Bool) : ℚ :=
  let tempMin := roundToDouble env.temperature.min
  let tempMax := roundToDouble env.temperature.max
  let atmosphere := roundToDouble env.atmosphere
  let baseTemp := addDouble tempMin (mulDouble (subDouble tempMax tempMin) progress)
  let baseTemp :=
    if isEngineRunning = true ∧ rocket.currentFuel > 0 then
      addDouble baseTemp (addDouble 50 (mulDouble progress 100))
    else baseTemp
  let baseTemp :=
    if truthyNum env.orbitalVelocity = true then
      let solarCycle := mulDouble (host.sinPi (progress * 4)) 30
      addDouble baseTemp solarCycle
    else baseTemp
  let baseTemp :=
    if atmosphere > 0 then addDouble baseTemp (mulDouble atmosphere 1000)
    else baseTemp
  baseTemp

/-- The magnitude of the rocket velocity in double arithmetic. -/
def velocityMagnitudeDouble (host : Host) (rocket : Rocket) : ℚ :=
  host.sqrt
    (addDouble (mulDouble rocket.velocity.x rocket.velocity.x)
      (mulDouble rocket.velocity.y rocket.velocity.y))

/-- Method `calculateDamage(temperature, progress, deltaTime)` in double arithmetic.  The
radiation of the environment and the literals of the method are the doubles that their
decimal numerals denote; the three arguments are doubles. -/
def calculateDamageDouble (host : Host) (env : Environment) (rocket : Rocket)
    (temperature progress deltaTime : ℚ) : ℚ :=
  let damageRate : ℚ := 0
  let damageRate :=
    if temperature > 150 then
      addDouble damageRate (mulDouble (subDouble temperature 150) (roundToDouble 0.01))
    else if temperature < -200 then
      addDouble damageRate (mulDouble (subDouble (-200) temperature) (roundToDouble 0.005))
    else damageRate
  let damageRate :=
    addDouble damageRate
      (mulDouble (mulDouble (roundToDouble env.radiation) (roundToDouble 0.1)) progress)
  let damageRate :=
    if rocket.material = "Karbonfiber" then mulDouble damageRate (roundToDouble 0.6)
    else if rocket.material = "Kompozit" then mulDouble damageRate (roundToDouble 0.8)
    else damageRate
  let damageRate :=
    if rocket.hasControlSystem = true then mulDouble damageRate (roundToDouble 0.7)
    else damageRate
  let velocity := velocityMagnitudeDouble host rocket
  let damageRate :=
    if velocity > 100 then
      addDouble damageRate (mulDouble (subDouble velocity 100) (roundToDouble 0.001))
    else damageRate
  mulDouble damageRate deltaTime

/-- The damage rate before the scaling by material and control system, in double
arithmetic: the thermal term and the radiation term, as `calculateDamage` adds them. -/
def unscaledRateDouble (env : Environment) (temperature progress : ℚ) : ℚ :=
  let damageRate : ℚ := 0
  let damageRate :=
    if temperature > 150 then
      addDouble damageRate (mulDouble (subDouble temperature 150) (roundToDouble 0.01))
    else if temperature < -200 then
      addDouble damageRate (mulDouble (subDouble (-200) temperature) (roundToDouble 0.005))
    else damageRate
  addDouble damageRate
    (mulDouble (mulDouble (roundToDouble env.radiation) (roundToDouble 0.1)) progress)

/-- The interpolated base temperature in double arithmetic, the first assignment of
`calculateTemperature`. -/
def baseTemperatureDouble (env : Environment) (progress : ℚ) : ℚ :=
  addDouble (roundToDouble env.temperature.min)
    (mulDouble
      (subDouble (roundToDouble env.temperature.max) (roundToDouble env.temperature.min))
      progress)

/-- The last two blocks of `calculateTemperature` in double arithmetic: the solar term and
the atmosphere term, added to the temperature reached before them. -/
def laterTermsDouble (host : Host) (env : Environment) (progress baseTemp : ℚ) : ℚ :=
  let baseTemp :=
    if truthyNum env.orbitalVelocity = true then
      addDouble baseTemp (mulDouble (host.sinPi (progress * 4)) 30)
    else baseTemp
  if roundToDouble env.atmosphere > 0 then
    addDouble baseTemp (mulDouble (roundToDouble env.atmosphere) 1000)
  else baseTemp

/-! ## Auxiliary facts -/

/-- A mass that is handed over and is not 0 is the mass of the body. -/
theorem bodyMass_of_ne_zero {m : ℚ} (h : m ≠ 0) : bodyMass (some m) = m := by
  simp [bodyMass, h]

theorem bodyMass_miniCubeSat : bodyMass (some 1.3) = 1.3 :=
  bodyMass_of_ne_zero (by norm_num)

theorem catalog_radiation_nonneg {env : Environment} (h : env ∈ catalog) : 0 ≤ env.radiation := by
  simp only [catalog, List.mem_cons, List.mem_singleton, List.not_mem_nil, or_false] at h
  rcases h with rfl | rfl | rfl | rfl <;> norm_num [envLEO, envAy, envMars, envBosluk]

theorem heatTerm_nonneg (t : ℚ) : 0 ≤ heatTerm t := by
  unfold heatTerm
  split_ifs with h
  · have : 0 ≤ t - 150 := by linarith
    positivity
  · exact le_refl 0

theorem coldTerm_nonneg (t : ℚ) : 0 ≤ coldTerm t := by
  unfold coldTerm
  split_ifs with h
  · have : 0 ≤ -200 - t := by linarith
    positivity
  · exact le_refl 0

theorem overspeedTerm_nonneg (v : ℚ) : 0 ≤ overspeedTerm v := by
  unfold overspeedTerm
  split_ifs with h
  · have : 0 ≤ v - 100 := by linarith
    positivity
  · exact le_refl 0

theorem materialFactor_pos (m : String) : 0 < materialFactor m := by
  unfold materialFactor
  split_ifs <;> norm_num

theorem controlFactor_pos (b : Bool) : 0 < controlFactor b := by
  unfold controlFactor
  split_ifs <;> norm_num

/-- The increment computed by `calculateDamage`, term by term: the overspeed term is added
after the scaling by material and control system. -/
theorem calculateDamage_eq (host : Host) (env : Environment) (rocket : Rocket)
    (temperature progress deltaTime : ℚ) :
    calculateDamage host env rocket temperature progress deltaTime
      = ((heatTerm temperature + coldTerm temperature + radiationTerm env progress)
            * materialFactor rocket.material * controlFactor rocket.hasControlSystem
          + overspeedTerm (velocityMagnitude host rocket)) * deltaTime := by
  have hexcl : temperature > 150 → ¬ temperature < -200 := fun h h2 => by linarith
  simp only [calculateDamage, heatTerm, coldTerm, radiationTerm, overspeedTerm, materialFactor,
    controlFactor]
  split_ifs <;> first | (exfalso; linarith) | ring

theorem calculateDamage_nonneg (host : Host) (env : Environment) (rocket : Rocket)
    (temperature progress deltaTime : ℚ) (hr : 0 ≤ env.radiation) (hp : 0 ≤ progress)
    (hd : 0 ≤ deltaTime) : 0 ≤ calculateDamage host env rocket temperature progress deltaTime := by
  rw [calculateDamage_eq]
  have h1 := heatTerm_nonneg temperature
  have h2 := coldTerm_nonneg temperature
  have h3 : 0 ≤ radiationTerm env progress := by
    unfold radiationTerm
    positivity
  have h4 := overspeedTerm_nonneg (velocityMagnitude host rocket)
  have h5 := materialFactor_pos rocket.material
  have h6 := controlFactor_pos rocket.hasControlSystem
  have h7 : 0 ≤ heatTerm temperature + coldTerm temperature + radiationTerm env progress := by
    linarith
  positivity

/-- A tick without a rocket returns the stored snapshot unchanged. -/
theorem updateSimulation_of_no_rocket (host : Host) (s : PhysicsEngine) (progress deltaTime : ℚ)
    (b : Bool) (hr : s.rocket = none) :
    updateSimulation host s progress deltaTime b = .normal s s.simulationData := by
  simp [updateSimulation, hr]
/-- A tick with a rocket and an environment, field by field. -/
theorem updateSimulation_of_rocket (host : Host) (s : PhysicsEngine) (env : Environment)
    (body : Rocket) (progress deltaTime : ℚ) (b : Bool)
    (he : s.currentEnvironment = some (.entry env)) (hr : s.rocket = some body) :
    ∃ s2 : PhysicsEngine,
      updateSimulation host s progress deltaTime b = .normal s2 s2.simulationData
      ∧ s2.currentEnvironment = some (.entry env)
      ∧ s2.rocket = some (movedRocket host s body deltaTime)
      ∧ s2.gravity = s.gravity ∧ s2.forces = s.forces
      ∧ s2.simulationData.speed = velocityMagnitude host (movedRocket host s body deltaTime) * 100
      ∧ s2.simulationData.temperature
          = calculateTemperature host env (movedRocket host s body deltaTime) progress b
      ∧ s2.simulationData.fuel = body.currentFuel
      ∧ s2.simulationData.damage
          = min 100 (s.simulationData.damage
              + calculateDamage host env (movedRocket host s body deltaTime)
                  (calculateTemperature host env (movedRocket host s body deltaTime) progress b)
                  progress deltaTime)
      ∧ s2.simulationData.warnings
          = generateWarnings env s2.simulationData.temperature s2.simulationData.fuel
              s2.simulationData.damage s2.simulationData.speed := by
  simp only [updateSimulation, movedRocket, hr, he]
  exact ⟨_, rfl, rfl, rfl, rfl, rfl, rfl, rfl, rfl, rfl, rfl⟩

/-- The consumption of one thrust call is not negative for a non-negative intensity. -/
theorem calculateFuelConsumption_nonneg (env : Environment) (intensity : ℚ)
    (hi : 0 ≤ intensity) : 0 ≤ calculateFuelConsumption env intensity := by
  unfold calculateFuelConsumption
  split_ifs with h
  · have : 0 ≤ 1 + env.atmosphere * 10 := by linarith
    positivity
  · positivity

/-- A thrust call without a rocket changes nothing. -/
theorem applyThrust_of_no_rocket (s : PhysicsEngine) (direction : Vec) (intensity : ℚ)
    (hr : s.rocket = none) : applyThrust s direction intensity = .normal s () := by
  simp [applyThrust, hr]

/-- A thrust call with an empty tank changes nothing. -/
theorem applyThrust_of_empty (s : PhysicsEngine) (rocket : Rocket) (direction : Vec)
    (intensity : ℚ) (hr : s.rocket = some rocket) (hf : rocket.currentFuel ≤ 0) :
    applyThrust s direction intensity = .normal s () := by
  simp [applyThrust, hr, hf]

/-- A thrust call with fuel left, field by field. -/
theorem applyThrust_of_fuel (s : PhysicsEngine) (env : Environment) (rocket : Rocket)
    (direction : Vec) (intensity : ℚ) (he : s.currentEnvironment = some (.entry env))
    (hr : s.rocket = some rocket) (hf : 0 < rocket.currentFuel) :
    ∃ s2 : PhysicsEngine,
      applyThrust s direction intensity = .normal s2 ()
      ∧ s2.currentEnvironment = some (.entry env)
      ∧ s2.rocket = some { rocket with
          currentFuel := max 0 (rocket.currentFuel - calculateFuelConsumption env intensity) }
      ∧ s2.simulationData = s.simulationData
      ∧ s2.gravity = s.gravity := by
  have hf2 : ¬ rocket.currentFuel ≤ 0 := not_le.mpr hf
  simp only [applyThrust, hr, he, hf2, if_false]
  exact ⟨_, rfl, rfl, rfl, rfl, rfl⟩

/-- A thrust call in a state with an environment completes and keeps the environment and
the snapshot. -/
theorem applyThrust_frame (s : PhysicsEngine) (env : Environment) (direction : Vec)
    (intensity : ℚ) (he : s.currentEnvironment = some (.entry env)) :
    (applyThrust s direction intensity).isNormal = true
      ∧ (applyThrust s direction intensity).state.currentEnvironment = some (.entry env)
      ∧ (applyThrust s direction intensity).state.simulationData = s.simulationData := by
  cases hr : s.rocket with
  | none =>
    rw [applyThrust_of_no_rocket s direction intensity hr]
    exact ⟨rfl, he, rfl⟩
  | some rocket =>
    by_cases hf : rocket.currentFuel ≤ 0
    · rw [applyThrust_of_empty s rocket direction intensity hr hf]
      exact ⟨rfl, he, rfl⟩
    · obtain ⟨s2, h1, h2, _, h4, _⟩ :=
        applyThrust_of_fuel s env rocket direction intensity he hr (not_le.mp hf)
      rw [h1]
      exact ⟨rfl, h2, h4⟩

/-- One call keeps the environment, completes, and moves the damage as required, when the
damage is within [0, 100] before it. -/
theorem step_damage (host : Host) (s : PhysicsEngine) (env : Environment) (e : Event)
    (he : s.currentEnvironment = some (.entry env)) (hrad : 0 ≤ env.radiation)
    (hlo : 0 ≤ s.simulationData.damage) (hhi : s.simulationData.damage ≤ 100)
    (hin : e.tickInRange) :
    stepCompletes host s e = true
      ∧ (step host s e).currentEnvironment = some (.entry env)
      ∧ DamageStep s (step host s e) := by
  cases e with
  | thrust direction intensity =>
    obtain ⟨h1, h2, h3⟩ := applyThrust_frame s env direction intensity he
    refine ⟨h1, h2, ?_⟩
    simp only [DamageStep, step, h3]
    exact ⟨le_refl _, hlo, hhi⟩
  | tick progress deltaTime b =>
    obtain ⟨hp0, _, hd0⟩ := hin
    cases hr : s.rocket with
    | none =>
      simp only [stepCompletes, step, DamageStep,
        updateSimulation_of_no_rocket host s progress deltaTime b hr]
      exact ⟨rfl, he, le_refl _, hlo, hhi⟩
    | some body =>
      obtain ⟨s2, h1, h2, _, _, _, _, _, _, h9, _⟩ :=
        updateSimulation_of_rocket host s env body progress deltaTime b he hr
      have hinc := calculateDamage_nonneg host env (movedRocket host s body deltaTime)
        (calculateTemperature host env (movedRocket host s body deltaTime) progress b)
        progress deltaTime hrad hp0 hd0
      simp only [stepCompletes, step, DamageStep, h1, Completion.isNormal, Completion.state]
      refine ⟨trivial, h2, ?_, ?_, ?_⟩
      · rw [h9]
        exact le_min hhi (by linarith)
      · rw [h9]
        exact le_min (by norm_num) (by linarith)
      · rw [h9]
        exact min_le_left _ _

/-- The damage along a sequence of calls. -/
theorem trace_damage (host : Host) (env : Environment) (hrad : 0 ≤ env.radiation)
    (events : List Event) :
    ∀ s : PhysicsEngine, s.currentEnvironment = some (.entry env) →
      0 ≤ s.simulationData.damage → s.simulationData.damage ≤ 100 →
      (∀ e ∈ events, e.tickInRange) →
      allComplete host s events = true ∧ List.Chain DamageStep s (trace host s events) := by
  induction events with
  | nil =>
    intro s _ _ _ _
    exact ⟨rfl, List.Chain.nil⟩
  | cons e es ih =>
    intro s he hlo hhi hin
    obtain ⟨h1, h2, h3⟩ := step_damage host s env e he hrad hlo hhi
      (hin e (List.mem_cons_self e es))
    obtain ⟨h4, h5⟩ := ih (step host s e) h2 h3.2.1 h3.2.2
      (fun e2 he2 => hin e2 (List.mem_cons_of_mem e he2))
    refine ⟨?_, List.Chain.cons h3 h5⟩
    simp only [allComplete, h1, h4, Bool.and_self]

/-- One call moves the fuel as required, when the fuel is within [0, 100] before it and
the state has an environment. -/
theorem step_fuel (host : Host) (s : PhysicsEngine) (env : Environment) (e : Event)
    (f : ℚ) (he : s.currentEnvironment = some (.entry env)) (hf : fuelOf s = some f)
    (hlo : 0 ≤ f) (hhi : f ≤ 100) (hin : e.thrustInRange) :
    stepCompletes host s e = true
      ∧ (step host s e).currentEnvironment = some (.entry env)
      ∧ FuelStep s (step host s e) := by
  obtain ⟨rocket, hr, hrf⟩ : ∃ rocket, s.rocket = some rocket ∧ rocket.currentFuel = f := by
    cases hr : s.rocket with
    | none => simp [fuelOf, hr] at hf
    | some rocket => exact ⟨rocket, rfl, by simpa [fuelOf, hr] using hf⟩
  cases e with
  | thrust direction intensity =>
    obtain ⟨h1, h2, _⟩ := applyThrust_frame s env direction intensity he
    refine ⟨h1, h2, ?_⟩
    by_cases hz : rocket.currentFuel ≤ 0
    · simp only [step, applyThrust_of_empty s rocket direction intensity hr hz,
        Completion.state]
      exact ⟨f, f, hf, hf, le_refl _, hlo, hhi⟩
    · obtain ⟨s2, e1, _, e3, _, _⟩ :=
        applyThrust_of_fuel s env rocket direction intensity he hr (not_le.mp hz)
      have hc := calculateFuelConsumption_nonneg env intensity hin.1
      simp only [step, e1, Completion.state]
      refine ⟨f, max 0 (rocket.currentFuel - calculateFuelConsumption env intensity), hf,
        by simp [fuelOf, e3], ?_, le_max_left _ _, ?_⟩
      · exact max_le hlo (by linarith)
      · exact max_le (by norm_num) (by linarith)
  | tick progress deltaTime b =>
    obtain ⟨s2, e1, e2, e3, _⟩ :=
      updateSimulation_of_rocket host s env rocket progress deltaTime b he hr
    simp only [stepCompletes, step, e1, Completion.isNormal, Completion.state]
    refine ⟨trivial, e2, f, f, hf, ?_, le_refl _, hlo, hhi⟩
    simp [fuelOf, e3, movedRocket, hrf]

/-- The fuel along a sequence of calls. -/
theorem trace_fuel (host : Host) (env : Environment) (events : List Event) :
    ∀ (s : PhysicsEngine) (f : ℚ), s.currentEnvironment = some (.entry env) → fuelOf s = some f →
      0 ≤ f → f ≤ 100 → (∀ e ∈ events, e.thrustInRange) →
      allComplete host s events = true ∧ List.Chain FuelStep s (trace host s events) := by
  induction events with
  | nil =>
    intro s f _ _ _ _ _
    exact ⟨rfl, List.Chain.nil⟩
  | cons e es ih =>
    intro s f he hf hlo hhi hin
    obtain ⟨h1, h2, h3⟩ := step_fuel host s env e f he hf hlo hhi
      (hin e (List.mem_cons_self e es))
    obtain ⟨_, fb, _, hfb, _, hb0, hb1⟩ := id h3
    obtain ⟨h4, h5⟩ := ih (step host s e) fb h2 hfb hb0 hb1
      (fun e2 he2 => hin e2 (List.mem_cons_of_mem e he2))
    refine ⟨?_, List.Chain.cons h3 h5⟩
    simp only [allComplete, h1, h4, Bool.and_self]


/-! ### The messages and their kinds -/

theorem kindOf_overheatCritical (t : ℚ) :
    kindOf (overheatCritical t) = some .overheatCritical := by
  simp [kindOf, startsWith, overheatCritical]

theorem kindOf_overheatWarning (t : ℚ) :
    kindOf (overheatWarning t) = some .overheatWarning := by
  simp [kindOf, startsWith, overheatWarning]

theorem kindOf_freezeCritical (t : ℚ) : kindOf (freezeCritical t) = some .freezeCritical := by
  simp [kindOf, startsWith, freezeCritical]

theorem kindOf_freezeWarning (t : ℚ) : kindOf (freezeWarning t) = some .freezeWarning := by
  simp [kindOf, startsWith, freezeWarning]

theorem kindOf_fuelCritical (f : ℚ) : kindOf (fuelCritical f) = some .fuelCritical := by
  simp [kindOf, startsWith, fuelCritical]

theorem kindOf_fuelWarning (f : ℚ) : kindOf (fuelWarning f) = some .fuelWarning := by
  simp [kindOf, startsWith, fuelWarning]

theorem kindOf_damageCritical (d : ℚ) : kindOf (damageCritical d) = some .damageCritical := by
  simp [kindOf, startsWith, damageCritical]

theorem kindOf_damageWarning (d : ℚ) : kindOf (damageWarning d) = some .damageWarning := by
  simp [kindOf, startsWith, damageWarning]

theorem kindOf_speedWarning : kindOf speedWarning = some .speed := by
  simp [kindOf, startsWith, speedWarning]

theorem kindOf_radiationWarning : kindOf radiationWarning = some .radiation := by
  simp [kindOf, startsWith, radiationWarning]

theorem kindOf_cosmicWarning : kindOf cosmicWarning = some .cosmic := by
  simp [kindOf, startsWith, cosmicWarning]

theorem push_two (c1 c2 : Prop) [Decidable c1] [Decidable c2] (w : List String)
    (a b : String) :
    (if c1 then w ++ [a] else if c2 then w ++ [b] else w)
      = w ++ (if c1 then [a] else if c2 then [b] else []) := by
  split_ifs <;> simp

theorem push_one (c : Prop) [Decidable c] (w : List String) (a : String) :
    (if c then w ++ [a] else w) = w ++ (if c then [a] else []) := by
  split_ifs <;> simp

/-- The list built by `generateWarnings` is the concatenation of its seven blocks. -/
theorem generateWarnings_eq (env : Environment) (temperature fuel damage speed : ℚ) :
    generateWarnings env temperature fuel damage speed
      = overheatPart temperature ++ freezePart temperature ++ fuelPart fuel
          ++ damagePart damage ++ speedPart speed ++ radiationPart env ++ cosmicPart env := by
  unfold generateWarnings
  lift_lets
  intro w0 w1 w2 w3 w4 w5 w6 w7
  have h1 : w1 = overheatPart temperature := by
    simp only [w1, w0, push_two, List.nil_append, overheatPart]
  have h2 : w2 = w1 ++ freezePart temperature := by
    simp only [w2, push_two, freezePart]
  have h3 : w3 = w2 ++ fuelPart fuel := by
    simp only [w3, push_two, fuelPart]
  have h4 : w4 = w3 ++ damagePart damage := by
    simp only [w4, push_two, damagePart]
  have h5 : w5 = w4 ++ speedPart speed := by
    simp only [w5, push_one, speedPart]
  have h6 : w6 = w5 ++ radiationPart env := by
    simp only [w6, push_one, radiationPart]
  have h7 : w7 = w6 ++ cosmicPart env := by
    simp only [w7, push_one, cosmicPart]
  rw [h7, h6, h5, h4, h3, h2, h1]


theorem mem_two {c1 c2 : Prop} [Decidable c1] [Decidable c2] {a b w : String} :
    w ∈ (if c1 then [a] else if c2 then [b] else [])
      ↔ (c1 ∧ w = a) ∨ (¬ c1 ∧ c2 ∧ w = b) := by
  split_ifs <;> simp [*]

theorem mem_one {c : Prop} [Decidable c] {a w : String} :
    w ∈ (if c then [a] else []) ↔ (c ∧ w = a) := by
  split_ifs <;> simp [*]

/-- The messages of `generateWarnings`, each with the condition under which it is
emitted. -/
theorem mem_generateWarnings {env : Environment} {temperature fuel damage speed : ℚ}
    {w : String} :
    w ∈ generateWarnings env temperature fuel damage speed
      ↔ (200 < temperature ∧ w = overheatCritical temperature)
        ∨ (temperature ≤ 200 ∧ 100 < temperature ∧ w = overheatWarning temperature)
        ∨ (temperature < -250 ∧ w = freezeCritical temperature)
        ∨ (-250 ≤ temperature ∧ temperature < -200 ∧ w = freezeWarning temperature)
        ∨ (fuel < 10 ∧ w = fuelCritical fuel)
        ∨ (10 ≤ fuel ∧ fuel < 25 ∧ w = fuelWarning fuel)
        ∨ (80 < damage ∧ w = damageCritical damage)
        ∨ (damage ≤ 80 ∧ 50 < damage ∧ w = damageWarning damage)
        ∨ (200 < speed ∧ w = speedWarning)
        ∨ (0.7 < env.radiation ∧ w = radiationWarning)
        ∨ (env.cosmicRadiation = some true ∧ w = cosmicWarning) := by
  rw [generateWarnings_eq]
  simp only [List.mem_append, or_assoc, overheatPart, freezePart, fuelPart, damagePart,
    speedPart, radiationPart, cosmicPart, mem_two, mem_one, gt_iff_lt, not_lt]

/-- The kind of every message of `generateWarnings`, with the condition under which it is
emitted. -/
theorem kindOf_of_mem_generateWarnings {env : Environment}
    {temperature fuel damage speed : ℚ} {w : String}
    (h : w ∈ generateWarnings env temperature fuel damage speed) :
    (200 < temperature ∧ kindOf w = some .overheatCritical)
      ∨ (temperature ≤ 200 ∧ 100 < temperature ∧ kindOf w = some .overheatWarning)
      ∨ (temperature < -250 ∧ kindOf w = some .freezeCritical)
      ∨ (-250 ≤ temperature ∧ temperature < -200 ∧ kindOf w = some .freezeWarning)
      ∨ (fuel < 10 ∧ kindOf w = some .fuelCritical)
      ∨ (10 ≤ fuel ∧ fuel < 25 ∧ kindOf w = some .fuelWarning)
      ∨ (80 < damage ∧ kindOf w = some .damageCritical)
      ∨ (damage ≤ 80 ∧ 50 < damage ∧ kindOf w = some .damageWarning)
      ∨ (200 < speed ∧ kindOf w = some .speed)
      ∨ (0.7 < env.radiation ∧ kindOf w = some .radiation)
      ∨ (env.cosmicRadiation = some true ∧ kindOf w = some .cosmic) := by
  rcases mem_generateWarnings.mp h with
    ⟨h1, rfl⟩ | ⟨h1, h2, rfl⟩ | ⟨h1, rfl⟩ | ⟨h1, h2, rfl⟩ | ⟨h1, rfl⟩ | ⟨h1, h2, rfl⟩
      | ⟨h1, rfl⟩ | ⟨h1, h2, rfl⟩ | ⟨h1, rfl⟩ | ⟨h1, rfl⟩ | ⟨h1, rfl⟩
  · exact Or.inl ⟨h1, kindOf_overheatCritical _⟩
  · exact Or.inr (Or.inl ⟨h1, h2, kindOf_overheatWarning _⟩)
  · exact Or.inr (Or.inr (Or.inl ⟨h1, kindOf_freezeCritical _⟩))
  · exact Or.inr (Or.inr (Or.inr (Or.inl ⟨h1, h2, kindOf_freezeWarning _⟩)))
  · exact Or.inr (Or.inr (Or.inr (Or.inr (Or.inl ⟨h1, kindOf_fuelCritical _⟩))))
  · exact Or.inr (Or.inr (Or.inr (Or.inr (Or.inr (Or.inl ⟨h1, h2, kindOf_fuelWarning _⟩)))))
  · exact Or.inr (Or.inr (Or.inr (Or.inr (Or.inr (Or.inr
      (Or.inl ⟨h1, kindOf_damageCritical _⟩))))))
  · exact Or.inr (Or.inr (Or.inr (Or.inr (Or.inr (Or.inr (Or.inr
      (Or.inl ⟨h1, h2, kindOf_damageWarning _⟩)))))))
  · exact Or.inr (Or.inr (Or.inr (Or.inr (Or.inr (Or.inr (Or.inr (Or.inr
      (Or.inl ⟨h1, kindOf_speedWarning⟩))))))))
  · exact Or.inr (Or.inr (Or.inr (Or.inr (Or.inr (Or.inr (Or.inr (Or.inr (Or.inr
      (Or.inl ⟨h1, kindOf_radiationWarning⟩)))))))))
  · exact Or.inr (Or.inr (Or.inr (Or.inr (Or.inr (Or.inr (Or.inr (Or.inr (Or.inr
      (Or.inr ⟨h1, kindOf_cosmicWarning⟩)))))))))

/-- The raw speed of the example rocket. -/
theorem velocityMagnitude_fastCarbonRocket :
    velocityMagnitude restHost fastCarbonRocket = 200 := by
  have h : (200 : ℚ) ^ 2 + 0 ^ 2 = 200 * 200 := by norm_num
  simp only [velocityMagnitude, restHost, fastCarbonRocket, h, Rat.sqrt_eq]
  norm_num

/-- `Math.round` yields `n` exactly for the arguments in [n − 1/2, n + 1/2). -/
theorem mathRound_eq_iff (x : ℚ) (n : ℤ) :
    mathRound x = n ↔ (n : ℚ) - 1 / 2 ≤ x ∧ x < (n : ℚ) + 1 / 2 := by
  unfold mathRound
  rw [Int.floor_eq_iff]
  constructor
  · rintro ⟨h1, h2⟩
    exact ⟨by linarith, by linarith⟩
  · rintro ⟨h1, h2⟩
    exact ⟨by linarith, by linarith⟩

/-- The state after `initializeEnvironment` with a catalog key and `createRocket` with
the Mini CubeSat preset. -/
theorem sessionOf_miniCubeSat (name : String) (env : Environment)
    (h : environments name = some env) :
    createRocket (initializeEnvironment PhysicsEngine.initial name).state miniCubeSat
      = .normal (sessionOf name miniCubeSat)
          { mass := 1.3, frictionAir := some (env.atmosphere * 0.001),
            position := { x := 400, y := 300 }, velocity := { x := 0, y := 0 },
            thrust := some 0.1, fuelCapacity := 100, currentFuel := 100,
            material := "Alüminyum", hasControlSystem := false }
      ∧ (sessionOf name miniCubeSat).currentEnvironment = some (.entry env)
      ∧ (sessionOf name miniCubeSat).simulationData = PhysicsEngine.initial.simulationData
      ∧ (sessionOf name miniCubeSat).rocket
          = some { mass := 1.3, frictionAir := some (env.atmosphere * 0.001),
                   position := { x := 400, y := 300 }, velocity := { x := 0, y := 0 },
                   thrust := some 0.1, fuelCapacity := 100, currentFuel := 100,
                   material := "Alüminyum", hasControlSystem := false } := by
  simp [sessionOf, initializeEnvironment, environmentsLookup, frictionAirOf, h, createRocket,
    Completion.state, presetMassThrust, miniCubeSat, materialOrDefault, bodyMass_miniCubeSat]

theorem environments_Bosluk : environments "Boşluk" = some envBosluk := by
  simp [environments]

theorem environments_Ay : environments "Ay" = some envAy := by
  simp [environments]

/-- The temperature in Boşluk at progress 1 is −50 with a burning engine and −200
otherwise. -/
theorem calculateTemperature_Bosluk_one (host : Host) (rocket : Rocket) (b : Bool) :
    calculateTemperature host envBosluk rocket 1 b
      = if b = true ∧ rocket.currentFuel > 0 then -50 else -200 := by
  simp only [calculateTemperature, envBosluk, truthyNum]
  split_ifs <;> norm_num at *

/-- `Math.round` yields an integer nearest to its argument. -/
theorem mathRound_nearest (x : ℚ) : |x - (mathRound x : ℚ)| ≤ 1 / 2 := by
  have h := (mathRound_eq_iff x (mathRound x)).mp rfl
  rw [abs_le]
  exact ⟨by linarith [h.2], by linarith [h.1]⟩

theorem rankOf_of_kind {w : String} {k : Kind} (h : kindOf w = some k) :
    rankOf w = k.category.rank := by
  simp [rankOf, categoryOf, h]

theorem rankOf_overheatPart {t : ℚ} {w : String} (h : w ∈ overheatPart t) : rankOf w = 0 := by
  rcases mem_two.mp h with ⟨_, rfl⟩ | ⟨_, _, rfl⟩
  · exact rankOf_of_kind (kindOf_overheatCritical t)
  · exact rankOf_of_kind (kindOf_overheatWarning t)

theorem rankOf_freezePart {t : ℚ} {w : String} (h : w ∈ freezePart t) : rankOf w = 0 := by
  rcases mem_two.mp h with ⟨_, rfl⟩ | ⟨_, _, rfl⟩
  · exact rankOf_of_kind (kindOf_freezeCritical t)
  · exact rankOf_of_kind (kindOf_freezeWarning t)

theorem rankOf_fuelPart {f : ℚ} {w : String} (h : w ∈ fuelPart f) : rankOf w = 1 := by
  rcases mem_two.mp h with ⟨_, rfl⟩ | ⟨_, _, rfl⟩
  · exact rankOf_of_kind (kindOf_fuelCritical f)
  · exact rankOf_of_kind (kindOf_fuelWarning f)

theorem rankOf_damagePart {d : ℚ} {w : String} (h : w ∈ damagePart d) : rankOf w = 2 := by
  rcases mem_two.mp h with ⟨_, rfl⟩ | ⟨_, _, rfl⟩
  · exact rankOf_of_kind (kindOf_damageCritical d)
  · exact rankOf_of_kind (kindOf_damageWarning d)

theorem rankOf_speedPart {s : ℚ} {w : String} (h : w ∈ speedPart s) : rankOf w = 3 := by
  obtain ⟨_, rfl⟩ := mem_one.mp h
  exact rankOf_of_kind kindOf_speedWarning

theorem rankOf_radiationPart {env : Environment} {w : String} (h : w ∈ radiationPart env) :
    rankOf w = 4 := by
  obtain ⟨_, rfl⟩ := mem_one.mp h
  exact rankOf_of_kind kindOf_radiationWarning

theorem rankOf_cosmicPart {env : Environment} {w : String} (h : w ∈ cosmicPart env) :
    rankOf w = 5 := by
  obtain ⟨_, rfl⟩ := mem_one.mp h
  exact rankOf_of_kind kindOf_cosmicWarning

/-- Appending a block whose messages all have rank `k` to a list that is ordered by rank
and whose ranks are at most `k` gives a list of the same sort. -/
theorem ordered_append_block (l p : List String) (k : Nat)
    (hl : l.Pairwise (fun a b => rankOf a ≤ rankOf b)) (hlk : ∀ w ∈ l, rankOf w ≤ k)
    (hp : ∀ w ∈ p, rankOf w = k) :
    (l ++ p).Pairwise (fun a b => rankOf a ≤ rankOf b) ∧ ∀ w ∈ l ++ p, rankOf w ≤ k := by
  constructor
  · rw [List.pairwise_append]
    refine ⟨hl, ?_, ?_⟩
    · rw [List.pairwise_iff_forall_sublist]
      intro a b hab
      have ha := hp a (hab.subset (List.mem_cons_self a [b]))
      have hb := hp b (hab.subset (List.mem_cons_of_mem a (List.mem_singleton_self b)))
      rw [ha, hb]
    · intro a ha b hb
      rw [hp b hb]
      exact hlk a ha
  · intro w hw
    rcases List.mem_append.mp hw with h | h
    · exact hlk w h
    · exact le_of_eq (hp w h)

/-- The messages of `generateWarnings` are ordered by the rank of their category. -/
theorem generateWarnings_ordered (env : Environment) (temperature fuel damage speed : ℚ) :
    (generateWarnings env temperature fuel damage speed).Pairwise
      (fun a b => rankOf a ≤ rankOf b) := by
  rw [generateWarnings_eq]
  have h0 := ordered_append_block [] (overheatPart temperature) 0 List.Pairwise.nil
    (fun w hw => absurd hw (List.not_mem_nil w)) (fun w hw => rankOf_overheatPart hw)
  rw [List.nil_append] at h0
  have h0' := ordered_append_block _ (freezePart temperature) 0 h0.1 h0.2
    (fun w hw => rankOf_freezePart hw)
  have h1 := ordered_append_block _ (fuelPart fuel) 1 h0'.1
    (fun w hw => le_trans (h0'.2 w hw) (by norm_num)) (fun w hw => rankOf_fuelPart hw)
  have h2 := ordered_append_block _ (damagePart damage) 2 h1.1
    (fun w hw => le_trans (h1.2 w hw) (by norm_num)) (fun w hw => rankOf_damagePart hw)
  have h3 := ordered_append_block _ (speedPart speed) 3 h2.1
    (fun w hw => le_trans (h2.2 w hw) (by norm_num)) (fun w hw => rankOf_speedPart hw)
  have h4 := ordered_append_block _ (radiationPart env) 4 h3.1
    (fun w hw => le_trans (h3.2 w hw) (by norm_num)) (fun w hw => rankOf_radiationPart hw)
  have h5 := ordered_append_block _ (cosmicPart env) 5 h4.1
    (fun w hw => le_trans (h4.2 w hw) (by norm_num)) (fun w hw => rankOf_cosmicPart hw)
  exact h5.1

/-- The six messages emitted in Boşluk at temperature 250, fuel 8, damage 90, speed 300. -/
theorem generateWarnings_all_six :
    generateWarnings envBosluk 250 8 90 300
      = [overheatCritical 250, fuelCritical 8, damageCritical 90, speedWarning,
          radiationWarning, cosmicWarning] := by
  rw [generateWarnings_eq]
  norm_num [overheatPart, freezePart, fuelPart, damagePart, speedPart, radiationPart,
    cosmicPart, envBosluk]

theorem environments_Mars : environments "Mars" = some envMars := by
  simp [environments]

/-- The lookup of a name that is not a key of the table yields no entry. -/
theorem environments_of_not_key {name : String} (h : name ∉ catalogKeys) :
    environments name = none := by
  simp only [catalogKeys, List.mem_cons, List.mem_singleton, List.not_mem_nil, or_false,
    not_or] at h
  simp [environments, h.1, h.2.1, h.2.2.1, h.2.2.2]

theorem environments_LEO : environments "LEO" = some envLEO := by
  simp [environments]

/-- The mass and thrust of a preset specification whose model is not in the table are the
defaults 100 and 1000. -/
theorem presetMassThrust_of_unknown (rocketData : RocketData)
    (ht : rocketData.type ≠ "manual")
    (hm : ∀ m ∈ presetModels, rocketData.model ≠ some m) :
    presetMassThrust rocketData = (some 100, some 1000) := by
  have h1 := hm "Mini CubeSat" (by simp [presetModels])
  have h2 := hm "Deneysel Roket" (by simp [presetModels])
  have h3 := hm "İletişim Uydusu" (by simp [presetModels])
  simp [presetMassThrust, ht, h1, h2, h3]

/-- The mass and thrust of a manual specification are its weight and motor power. -/
theorem presetMassThrust_of_manual (rocketData : RocketData)
    (ht : rocketData.type = "manual") :
    presetMassThrust rocketData = (rocketData.weight, rocketData.motorPower) := by
  simp [presetMassThrust, ht]

/-- With a current environment `createRocket` completes; the rocket it stores and returns
has the mass and thrust chosen from the specification and a full tank. -/
theorem createRocket_of_environment (s : PhysicsEngine) (ref : EnvRef)
    (rocketData : RocketData) (he : s.currentEnvironment = some ref) :
    ∃ rocket : Rocket,
      createRocket s rocketData = .normal { s with rocket := some rocket } rocket
      ∧ rocket.mass = bodyMass (presetMassThrust rocketData).1
      ∧ rocket.thrust = (presetMassThrust rocketData).2
      ∧ rocket.currentFuel = 100 := by
  simp only [createRocket, he]
  exact ⟨_, rfl, rfl, rfl, rfl⟩

/-- The increment of `calculateDamage` for a rocket with a given material and
control-system flag, term by term. -/
theorem calculateDamage_with (host : Host) (env : Environment) (rocket : Rocket)
    (material : String) (control : Bool) (temperature progress deltaTime : ℚ) :
    calculateDamage host env
        { rocket with material := material, hasControlSystem := control }
        temperature progress deltaTime
      = ((heatTerm temperature + coldTerm temperature + radiationTerm env progress)
            * materialFactor material * controlFactor control
          + overspeedTerm (velocityMagnitude host rocket)) * deltaTime :=
  calculateDamage_eq host env { rocket with material := material, hasControlSystem := control }
    temperature progress deltaTime

theorem overspeedTerm_of_le {v : ℚ} (h : v ≤ 100) : overspeedTerm v = 0 := by
  simp [overspeedTerm, not_lt.mpr h]

theorem materialFactor_default {m : String} (h1 : m ≠ "Karbonfiber") (h2 : m ≠ "Kompozit") :
    materialFactor m = 1 := by
  simp [materialFactor, h1, h2]

theorem materialFactor_Karbonfiber : materialFactor "Karbonfiber" = 0.6 := by
  simp [materialFactor]

theorem materialFactor_Kompozit : materialFactor "Kompozit" = 0.8 := by
  simp [materialFactor]

theorem controlFactor_true : controlFactor true = 0.7 := by
  simp [controlFactor]

theorem controlFactor_false : controlFactor false = 1 := by
  simp [controlFactor]

theorem velocityMagnitude_restingRocket : velocityMagnitude restHost restingRocket = 0 := by
  have h : (0 : ℚ) ^ 2 + 0 ^ 2 = 0 * 0 := by norm_num
  simp only [velocityMagnitude, restHost, restingRocket, h, Rat.sqrt_eq]
  norm_num

/-- The speed warning is emitted exactly when the speed handed to `generateWarnings` is
above 200. -/
theorem speedWarning_mem_iff (env : Environment) (temperature fuel damage speed : ℚ) :
    speedWarning ∈ generateWarnings env temperature fuel damage speed ↔ 200 < speed := by
  constructor
  · intro h
    have hk := kindOf_speedWarning
    rcases kindOf_of_mem_generateWarnings h with
      ⟨_, h⟩ | ⟨_, _, h⟩ | ⟨_, h⟩ | ⟨_, _, h⟩ | ⟨_, h⟩ | ⟨_, _, h⟩
        | ⟨_, h⟩ | ⟨_, _, h⟩ | ⟨hs, _⟩ | ⟨_, h⟩ | ⟨_, h⟩
    all_goals first
      | exact hs
      | (rw [hk] at h; exact absurd h (by decide))
  · intro h
    exact mem_generateWarnings.mpr
      (Or.inr (Or.inr (Or.inr (Or.inr (Or.inr (Or.inr (Or.inr (Or.inr (Or.inl
        ⟨h, rfl⟩)))))))))

theorem overspeedTerm_pos_iff (v : ℚ) : 0 < overspeedTerm v ↔ 100 < v := by
  unfold overspeedTerm
  split_ifs with h
  · constructor
    · intro _; exact h
    · intro _
      have : 0 < v - 100 := by linarith
      positivity
  · constructor
    · intro h0; exact absurd h0 (lt_irrefl 0)
    · intro h1; exact absurd h1 h

theorem categoryOf_of_kind {w : String} {k : Kind} (h : kindOf w = some k) :
    categoryOf w = some k.category := by
  simp [categoryOf, h]

theorem categoryOf_overheatPart {t : ℚ} {w : String} (h : w ∈ overheatPart t) :
    categoryOf w = some Category.temperature := by
  rcases mem_two.mp h with ⟨_, rfl⟩ | ⟨_, _, rfl⟩
  · exact categoryOf_of_kind (kindOf_overheatCritical t)
  · exact categoryOf_of_kind (kindOf_overheatWarning t)

theorem categoryOf_freezePart {t : ℚ} {w : String} (h : w ∈ freezePart t) :
    categoryOf w = some Category.temperature := by
  rcases mem_two.mp h with ⟨_, rfl⟩ | ⟨_, _, rfl⟩
  · exact categoryOf_of_kind (kindOf_freezeCritical t)
  · exact categoryOf_of_kind (kindOf_freezeWarning t)

theorem categoryOf_fuelPart {f : ℚ} {w : String} (h : w ∈ fuelPart f) :
    categoryOf w = some Category.fuel := by
  rcases mem_two.mp h with ⟨_, rfl⟩ | ⟨_, _, rfl⟩
  · exact categoryOf_of_kind (kindOf_fuelCritical f)
  · exact categoryOf_of_kind (kindOf_fuelWarning f)

theorem categoryOf_damagePart {d : ℚ} {w : String} (h : w ∈ damagePart d) :
    categoryOf w = some Category.damage := by
  rcases mem_two.mp h with ⟨_, rfl⟩ | ⟨_, _, rfl⟩
  · exact categoryOf_of_kind (kindOf_damageCritical d)
  · exact categoryOf_of_kind (kindOf_damageWarning d)

theorem categoryOf_speedPart {s : ℚ} {w : String} (h : w ∈ speedPart s) :
    categoryOf w = some Category.speed := by
  obtain ⟨_, rfl⟩ := mem_one.mp h
  exact categoryOf_of_kind kindOf_speedWarning

theorem categoryOf_radiationPart {env : Environment} {w : String}
    (h : w ∈ radiationPart env) : categoryOf w = some Category.radiation := by
  obtain ⟨_, rfl⟩ := mem_one.mp h
  exact categoryOf_of_kind kindOf_radiationWarning

theorem categoryOf_cosmicPart {env : Environment} {w : String} (h : w ∈ cosmicPart env) :
    categoryOf w = some Category.cosmic := by
  obtain ⟨_, rfl⟩ := mem_one.mp h
  exact categoryOf_of_kind kindOf_cosmicWarning

/-- In a block whose messages all have category `cP`, the messages of category `c` are
all of them when `c = cP` and none otherwise. -/
theorem countP_category_block (p : List String) (cP c : Category)
    (h : ∀ w ∈ p, categoryOf w = some cP) :
    p.countP (fun w => decide (categoryOf w = some c)) = if c = cP then p.length else 0 := by
  split_ifs with hc
  · rw [List.countP_eq_length]
    intro w hw
    simp [h w hw, hc]
  · rw [List.countP_eq_zero]
    intro w hw
    simp only [h w hw, Option.some.injEq, decide_eq_true_eq]
    exact fun e => hc e.symm

/-- The overheat block and the freeze block are never both non-empty. -/
theorem temperature_blocks_length (t : ℚ) :
    (overheatPart t).length + (freezePart t).length ≤ 1 := by
  unfold overheatPart freezePart
  split_ifs <;> simp <;> linarith

theorem two_block_length {c1 c2 : Prop} [Decidable c1] [Decidable c2] (a b : String) :
    (if c1 then [a] else if c2 then [b] else []).length ≤ 1 := by
  split_ifs <;> simp

theorem one_block_length {c : Prop} [Decidable c] (a : String) :
    (if c then [a] else []).length ≤ 1 := by
  split_ifs <;> simp

/-- The only warning in Ay at temperature 20 with a full tank, no damage and at rest is the
radiation warning. -/
theorem generateWarnings_Ay_calm :
    generateWarnings envAy 20 100 0 0 = [radiationWarning] := by
  rw [generateWarnings_eq]
  have hc : ¬ (none : Option Bool) = some true := by decide
  norm_num [overheatPart, freezePart, fuelPart, damagePart, speedPart, radiationPart,
    cosmicPart, envAy, hc]

/-- The fuel after a thrust call with fuel left: max(0, fuel − rate), one rate per call,
where the rate is 0.1 × intensity × (1 + atmosphere × 10) when atmosphere > 0 and
0.1 × intensity otherwise.  No elapsed time enters. -/
theorem applyThrust_fuel_per_call (s : PhysicsEngine) (env : Environment) (rocket : Rocket)
    (direction : Vec) (intensity : ℚ) (he : s.currentEnvironment = some (.entry env))
    (hr : s.rocket = some rocket) (hf : 0 < rocket.currentFuel) :
    ∃ s2 : PhysicsEngine,
      applyThrust s direction intensity = .normal s2 ()
      ∧ s2.currentEnvironment = some (.entry env)
      ∧ s2.rocket = some { rocket with
          currentFuel := max 0 (rocket.currentFuel - calculateFuelConsumption env intensity) }
      ∧ fuelOf s2
          = some (max 0 (rocket.currentFuel - calculateFuelConsumption env intensity))
      ∧ (0 < env.atmosphere →
          calculateFuelConsumption env intensity
            = 0.1 * intensity * (1 + env.atmosphere * 10))
      ∧ (env.atmosphere ≤ 0 → calculateFuelConsumption env intensity = 0.1 * intensity) := by
  obtain ⟨s2, h1, h2, h3, _, _⟩ :=
    applyThrust_of_fuel s env rocket direction intensity he hr hf
  refine ⟨s2, h1, h2, h3, by simp [fuelOf, h3], ?_, ?_⟩
  · intro ha
    simp [calculateFuelConsumption, ha]
  · intro ha
    simp [calculateFuelConsumption, not_lt.mpr ha]

/-- A tick reads nothing of the stored warnings when there is a rocket. -/
theorem updateSimulation_congr_of_rocket (host : Host) (s1 s2 : PhysicsEngine)
    (body : Rocket) (progress deltaTime : ℚ) (b : Bool)
    (hd : DifferOnlyInWarnings s1 s2) (hr : s1.rocket = some body) :
    (updateSimulation host s1 progress deltaTime b).returned
        = (updateSimulation host s2 progress deltaTime b).returned
      ∧ ((updateSimulation host s1 progress deltaTime b).isNormal = true →
          updateSimulation host s1 progress deltaTime b
            = updateSimulation host s2 progress deltaTime b) := by
  obtain ⟨g, fs, e, r, ⟨sp, te, fu, da, wa⟩⟩ := s1
  obtain ⟨g2, fs2, e2, r2, ⟨sp2, te2, fu2, da2, wa2⟩⟩ := s2
  obtain ⟨rfl, rfl, rfl, rfl, rfl, rfl, rfl, rfl⟩ := hd
  simp only at hr
  subst hr
  cases e with
  | none => exact ⟨rfl, fun h => absurd h (by simp [updateSimulation, Completion.isNormal])⟩
  | some ref =>
    cases ref with
    | entry env => exact ⟨rfl, fun _ => rfl⟩
    | inherited n =>
      exact ⟨rfl, fun h => absurd h (by simp [updateSimulation, Completion.isNormal])⟩

theorem velocityMagnitudeDouble_restingRocket :
    velocityMagnitudeDouble restHost restingRocket = 0 := by
  decide!

/-- In exact arithmetic and with raw speed at most 100, the increment of `calculateDamage`
for Karbonfiber is 0.6 times, and for Kompozit 0.8 times, the increment for a default
material with the same control-system flag; a control system multiplies the increment of
any material by 0.7; and Karbonfiber with a control system gives 0.42 times the increment
of a default material without one. -/
theorem calculateDamage_scaling_exact (host : Host) (env : Environment) (rocket : Rocket)
    (material : String) (temperature progress deltaTime : ℚ)
    (h1 : material ≠ "Karbonfiber") (h2 : material ≠ "Kompozit")
    (hv : velocityMagnitude host rocket ≤ 100) :
    (∀ control : Bool,
        calculateDamage host env
            { rocket with material := "Karbonfiber", hasControlSystem := control }
            temperature progress deltaTime
          = 0.6 * calculateDamage host env
              { rocket with material := material, hasControlSystem := control }
              temperature progress deltaTime
        ∧ calculateDamage host env
            { rocket with material := "Kompozit", hasControlSystem := control }
            temperature progress deltaTime
          = 0.8 * calculateDamage host env
              { rocket with material := material, hasControlSystem := control }
              temperature progress deltaTime)
      ∧ (∀ anyMaterial : String,
        calculateDamage host env
            { rocket with material := anyMaterial, hasControlSystem := true }
            temperature progress deltaTime
          = 0.7 * calculateDamage host env
              { rocket with material := anyMaterial, hasControlSystem := false }
              temperature progress deltaTime)
      ∧ calculateDamage host env
          { rocket with material := "Karbonfiber", hasControlSystem := true }
          temperature progress deltaTime
        = 0.42 * calculateDamage host env
            { rocket with material := material, hasControlSystem := false }
            temperature progress deltaTime := by
  have hm := materialFactor_default h1 h2
  have ho := overspeedTerm_of_le hv
  refine ⟨fun control => ⟨?_, ?_⟩, fun anyMaterial => ?_, ?_⟩
  · rw [calculateDamage_with, calculateDamage_with, ho, hm, materialFactor_Karbonfiber]
    ring
  · rw [calculateDamage_with, calculateDamage_with, ho, hm, materialFactor_Kompozit]
    ring
  · rw [calculateDamage_with, calculateDamage_with, ho, controlFactor_true,
      controlFactor_false]
    ring
  · rw [calculateDamage_with, calculateDamage_with, ho, hm, materialFactor_Karbonfiber,
      controlFactor_true, controlFactor_false]
    ring

/-- In exact arithmetic, when the rocket has fuel the temperature with the engine running
exceeds the temperature with the engine off by exactly 50 + progress × 100; when the fuel is
at most 0 the flag makes no difference. -/
theorem calculateTemperature_engine_exact (host : Host) (env : Environment) (rocket : Rocket)
    (progress : ℚ) :
    (0 < rocket.currentFuel →
        calculateTemperature host env rocket progress true
          = calculateTemperature host env rocket progress false + (50 + progress * 100))
      ∧ (rocket.currentFuel ≤ 0 →
        calculateTemperature host env rocket progress true
          = calculateTemperature host env rocket progress false) := by
  constructor
  · intro hf
    simp only [calculateTemperature, gt_iff_lt, hf, and_self, if_true, Bool.false_eq_true,
      false_and, if_false]
    split_ifs <;> ring
  · intro hf
    simp only [calculateTemperature, gt_iff_lt, not_lt.mpr hf, and_false, if_false,
      Bool.false_eq_true, false_and]

/-- The increment of `calculateDamageDouble` with raw speed at most 100: the unscaled rate,
multiplied by the factor of the material (if any), then by 0.7 with a control system, then
by the elapsed time, each product rounded. -/
theorem calculateDamageDouble_with (host : Host) (env : Environment) (rocket : Rocket)
    (material : String) (control : Bool) (temperature progress deltaTime : ℚ)
    (hv : velocityMagnitudeDouble host rocket ≤ 100) :
    calculateDamageDouble host env
        { rocket with material := material, hasControlSystem := control }
        temperature progress deltaTime
      = mulDouble
          (if control = true then
            mulDouble
              (if material = "Karbonfiber" then
                mulDouble (unscaledRateDouble env temperature progress) (roundToDouble 0.6)
              else if material = "Kompozit" then
                mulDouble (unscaledRateDouble env temperature progress) (roundToDouble 0.8)
              else unscaledRateDouble env temperature progress)
              (roundToDouble 0.7)
          else
            (if material = "Karbonfiber" then
              mulDouble (unscaledRateDouble env temperature progress) (roundToDouble 0.6)
            else if material = "Kompozit" then
              mulDouble (unscaledRateDouble env temperature progress) (roundToDouble 0.8)
            else unscaledRateDouble env temperature progress))
          deltaTime := by
  have hv2 : ¬ velocityMagnitudeDouble host
      { rocket with material := material, hasControlSystem := control } > 100 :=
    not_lt.mpr hv
  simp only [calculateDamageDouble, unscaledRateDouble, hv2, if_false]

/-! ## Claims -/

/-- C1: along every sequence of calls that starts with damage 0 in a catalog environment,
with every tick's progress in [0, 1] and elapsed time at least 0, every call completes, and
the cumulative damage after each call is at least the damage before it and lies within
[0, 100]. -/
theorem damage_nondecreasing_and_bounded (host : Host) (s : PhysicsEngine) (env : Environment)
    (events : List Event) (he : s.currentEnvironment = some (.entry env)) (hcat : env ∈ catalog)
    (h0 : s.simulationData.damage = 0) (hin : ∀ e ∈ events, e.tickInRange) :
    allComplete host s events = true
      ∧ List.Chain
          (fun a b => a.simulationData.damage ≤ b.simulationData.damage
            ∧ 0 ≤ b.simulationData.damage ∧ b.simulationData.damage ≤ 100)
          s (trace host s events) :=
  trace_damage host env (catalog_radiation_nonneg hcat) events s he (by rw [h0])
    (by rw [h0]; norm_num) hin

/-- Instance of C1: a LEO session with the Mini CubeSat preset, two ticks and a thrust call
between them. -/
theorem damage_nondecreasing_and_bounded_witness :
    (sessionOf "LEO" miniCubeSat).currentEnvironment = some (.entry envLEO)
      ∧ envLEO ∈ catalog
      ∧ (sessionOf "LEO" miniCubeSat).simulationData.damage = 0
      ∧ (∀ e ∈ [Event.tick (1 / 2) 1 true, Event.thrust { x := 0, y := -1 } 1,
            Event.tick 1 1 false], e.tickInRange)
      ∧ (allComplete restHost (sessionOf "LEO" miniCubeSat)
            [Event.tick (1 / 2) 1 true, Event.thrust { x := 0, y := -1 } 1,
              Event.tick 1 1 false] = true
          ∧ List.Chain
              (fun a b => a.simulationData.damage ≤ b.simulationData.damage
                ∧ 0 ≤ b.simulationData.damage ∧ b.simulationData.damage ≤ 100)
              (sessionOf "LEO" miniCubeSat)
              (trace restHost (sessionOf "LEO" miniCubeSat)
                [Event.tick (1 / 2) 1 true, Event.thrust { x := 0, y := -1 } 1,
                  Event.tick 1 1 false])) :=
  have h1 : (sessionOf "LEO" miniCubeSat).currentEnvironment = some (.entry envLEO) := by
    simp [sessionOf, initializeEnvironment, environmentsLookup, frictionAirOf, environments,
      createRocket, Completion.state]
  have h2 : envLEO ∈ catalog := by simp [catalog]
  have h3 : (sessionOf "LEO" miniCubeSat).simulationData.damage = 0 := by
    simp [sessionOf, initializeEnvironment, environmentsLookup, frictionAirOf, environments,
      createRocket, Completion.state,
      PhysicsEngine.initial]
  have h4 : ∀ e ∈ [Event.tick (1 / 2) 1 true, Event.thrust { x := 0, y := -1 } 1,
      Event.tick 1 1 false], e.tickInRange := by
    intro e he
    simp only [List.mem_cons, List.mem_singleton, List.not_mem_nil, or_false] at he
    rcases he with rfl | rfl | rfl <;> norm_num [Event.tickInRange]
  ⟨h1, h2, h3, h4, damage_nondecreasing_and_bounded restHost _ envLEO _ h1 h2 h3 h4⟩

/-- C2: in every state with an environment (in particular a catalog environment) and a
rocket whose fuel is in [0, 100], a call of `applyThrust` with intensity at least 0 (in
particular in [0, 1]) completes and leaves a fuel that is at most the fuel before and within
[0, 100]; along every sequence of such calls (ticks may be interleaved) every call completes
and the same holds at each call, so the fuel never goes below 0. -/
theorem fuel_nonincreasing_and_bounded (host : Host) (s : PhysicsEngine) (env : Environment)
    (rocket : Rocket) (direction : Vec) (intensity : ℚ) (events : List Event)
    (he : s.currentEnvironment = some (.entry env)) (hr : s.rocket = some rocket)
    (hlo : 0 ≤ rocket.currentFuel) (hhi : rocket.currentFuel ≤ 100) (hi0 : 0 ≤ intensity)
    (hin : ∀ e ∈ events, e.thrustInRange) :
    (∃ s2 rocket2, applyThrust s direction intensity = .normal s2 ()
        ∧ s2.rocket = some rocket2
        ∧ rocket2.currentFuel ≤ rocket.currentFuel
        ∧ 0 ≤ rocket2.currentFuel ∧ rocket2.currentFuel ≤ 100)
      ∧ allComplete host s events = true
      ∧ List.Chain
          (fun a b => ∃ fa fb, fuelOf a = some fa ∧ fuelOf b = some fb
            ∧ fb ≤ fa ∧ 0 ≤ fb ∧ fb ≤ 100)
          s (trace host s events) := by
  have hf : fuelOf s = some rocket.currentFuel := by simp [fuelOf, hr]
  refine ⟨?_, trace_fuel host env events s rocket.currentFuel he hf hlo hhi hin⟩
  by_cases hz : rocket.currentFuel ≤ 0
  · exact ⟨s, rocket, applyThrust_of_empty s rocket direction intensity hr hz, hr,
      le_refl _, hlo, hhi⟩
  · obtain ⟨s2, e1, _, e3, _, _⟩ :=
      applyThrust_of_fuel s env rocket direction intensity he hr (not_le.mp hz)
    have hc := calculateFuelConsumption_nonneg env intensity hi0
    refine ⟨s2, _, e1, e3, ?_, le_max_left _ _, ?_⟩
    · exact max_le hlo (by linarith)
    · exact max_le (by norm_num) (by linarith)


/-- Instance of C2: a Mars session with the Mini CubeSat preset and three thrust calls. -/
theorem fuel_nonincreasing_and_bounded_witness :
    (sessionOf "Mars" miniCubeSat).currentEnvironment = some (.entry envMars)
      ∧ (∃ rocket, (sessionOf "Mars" miniCubeSat).rocket = some rocket
          ∧ rocket.currentFuel = 100)
      ∧ (∃ s2 rocket2,
          applyThrust (sessionOf "Mars" miniCubeSat) { x := 0, y := -1 } 1 = .normal s2 ()
            ∧ s2.rocket = some rocket2 ∧ rocket2.currentFuel ≤ 100 ∧ 0 ≤ rocket2.currentFuel)
      ∧ List.Chain
          (fun a b => ∃ fa fb, fuelOf a = some fa ∧ fuelOf b = some fb
            ∧ fb ≤ fa ∧ 0 ≤ fb ∧ fb ≤ 100)
          (sessionOf "Mars" miniCubeSat)
          (trace restHost (sessionOf "Mars" miniCubeSat)
            [Event.thrust { x := 0, y := -1 } 1, Event.tick (1 / 2) 1 true,
              Event.thrust { x := 1, y := 0 } (1 / 2)]) :=
  have h1 : (sessionOf "Mars" miniCubeSat).currentEnvironment = some (.entry envMars) := by
    simp [sessionOf, initializeEnvironment, environmentsLookup, frictionAirOf, environments,
      createRocket, Completion.state]
  have h2 : (sessionOf "Mars" miniCubeSat).rocket
      = some { mass := 1.3, frictionAir := some (envMars.atmosphere * 0.001),
               position := { x := 400, y := 300 }, velocity := { x := 0, y := 0 },
               thrust := some 0.1, fuelCapacity := 100, currentFuel := 100,
               material := "Alüminyum", hasControlSystem := false } := by
    simp [sessionOf, initializeEnvironment, environmentsLookup, frictionAirOf, environments,
      createRocket, Completion.state, presetMassThrust, miniCubeSat, materialOrDefault,
      bodyMass_miniCubeSat]
  have h3 : ∀ e ∈ [Event.thrust { x := 0, y := -1 } 1, Event.tick (1 / 2) 1 true,
      Event.thrust { x := 1, y := 0 } (1 / 2)], e.thrustInRange := by
    intro e he
    simp only [List.mem_cons, List.mem_singleton, List.not_mem_nil, or_false] at he
    rcases he with rfl | rfl | rfl <;> norm_num [Event.thrustInRange]
  have h := fuel_nonincreasing_and_bounded restHost (sessionOf "Mars" miniCubeSat) envMars _
    { x := 0, y := -1 } 1 _ h1 h2 (by norm_num) (by norm_num) (by norm_num) h3
  ⟨h1, ⟨_, h2, rfl⟩, by
    obtain ⟨⟨s2, r2, a, b, c, d, _⟩, _⟩ := h
    exact ⟨s2, r2, a, b, c, d⟩, h.2.2⟩

/-- C3, as stated, fails: for a Karbonfiber rocket at raw speed 200 in Ay, at temperature 0,
progress 1/2 and one second, the code returns 0.124 while the composition of the
specification gives 0.084. -/
theorem damage_composition_counterexample :
    calculateDamage restHost envAy fastCarbonRocket 0 (1 / 2) 1 = 31 / 250
      ∧ specDamageIncrement restHost envAy fastCarbonRocket 0 (1 / 2) 1 = 21 / 250
      ∧ calculateDamage restHost envAy fastCarbonRocket 0 (1 / 2) 1
          ≠ specDamageIncrement restHost envAy fastCarbonRocket 0 (1 / 2) 1 := by
  have h1 : calculateDamage restHost envAy fastCarbonRocket 0 (1 / 2) 1 = 31 / 250 := by
    rw [calculateDamage_eq, velocityMagnitude_fastCarbonRocket]
    norm_num [heatTerm, coldTerm, radiationTerm, overspeedTerm, materialFactor, controlFactor,
      envAy, fastCarbonRocket]
  have h2 : specDamageIncrement restHost envAy fastCarbonRocket 0 (1 / 2) 1 = 21 / 250 := by
    rw [specDamageIncrement, velocityMagnitude_fastCarbonRocket]
    norm_num [heatTerm, coldTerm, radiationTerm, overspeedTerm, materialFactor, controlFactor,
      envAy, fastCarbonRocket]
  refine ⟨h1, h2, ?_⟩
  rw [h1, h2]
  norm_num

/-- C3, amended: the increment of `calculateDamage` is
((heat + cold + radiation) × materialFactor × controlFactor + overspeed) × elapsedTime; the
overspeed term is added after the scaling by material and control system. -/
theorem damage_composition (host : Host) (env : Environment) (rocket : Rocket)
    (temperature progress deltaTime : ℚ) :
    calculateDamage host env rocket temperature progress deltaTime
      = (((if temperature > 150 then (temperature - 150) * 0.01 else 0)
            + (if temperature < -200 then (-200 - temperature) * 0.005 else 0)
            + env.radiation * 0.1 * progress)
          * (if rocket.material = "Karbonfiber" then 0.6
              else if rocket.material = "Kompozit" then 0.8 else 1)
          * (if rocket.hasControlSystem = true then 0.7 else 1)
          + (if velocityMagnitude host rocket > 100
              then (velocityMagnitude host rocket - 100) * 0.001 else 0))
        * deltaTime :=
  calculateDamage_eq host env rocket temperature progress deltaTime

/-- C4: `generateWarnings` emits the critical overheat message and no warning-level
overheat message when temperature > 200; the warning-level overheat message and no critical
one when 100 < temperature ≤ 200; and neither when temperature ≤ 100. -/
theorem overheat_levels (env : Environment) (temperature fuel damage speed : ℚ) :
    (200 < temperature →
        overheatCritical temperature ∈ generateWarnings env temperature fuel damage speed
        ∧ (∀ w ∈ generateWarnings env temperature fuel damage speed,
            kindOf w ≠ some Kind.overheatWarning)
        ∧ ∀ t, overheatWarning t ∉ generateWarnings env temperature fuel damage speed)
      ∧ (100 < temperature → temperature ≤ 200 →
        overheatWarning temperature ∈ generateWarnings env temperature fuel damage speed
        ∧ (∀ w ∈ generateWarnings env temperature fuel damage speed,
            kindOf w ≠ some Kind.overheatCritical)
        ∧ ∀ t, overheatCritical t ∉ generateWarnings env temperature fuel damage speed)
      ∧ (temperature ≤ 100 →
        (∀ w ∈ generateWarnings env temperature fuel damage speed,
            kindOf w ≠ some Kind.overheatCritical ∧ kindOf w ≠ some Kind.overheatWarning)
        ∧ ∀ t, overheatCritical t ∉ generateWarnings env temperature fuel damage speed
            ∧ overheatWarning t ∉ generateWarnings env temperature fuel damage speed) := by
  have key : ∀ w ∈ generateWarnings env temperature fuel damage speed,
      (kindOf w = some Kind.overheatCritical → 200 < temperature)
      ∧ (kindOf w = some Kind.overheatWarning → temperature ≤ 200 ∧ 100 < temperature) := by
    intro w hw
    rcases kindOf_of_mem_generateWarnings hw with
      ⟨h1, h⟩ | ⟨h1, h2, h⟩ | ⟨_, h⟩ | ⟨_, _, h⟩ | ⟨_, h⟩ | ⟨_, _, h⟩
        | ⟨_, h⟩ | ⟨_, _, h⟩ | ⟨_, h⟩ | ⟨_, h⟩ | ⟨_, h⟩ <;>
      simp [h, *]
  refine ⟨fun h => ⟨?_, ?_, ?_⟩, fun h1 h2 => ⟨?_, ?_, ?_⟩, fun h => ⟨?_, ?_⟩⟩
  · exact mem_generateWarnings.mpr (Or.inl ⟨h, rfl⟩)
  · intro w hw hk
    exact absurd h (not_lt.mpr ((key w hw).2 hk).1)
  · intro t ht
    exact absurd h (not_lt.mpr ((key _ ht).2 (kindOf_overheatWarning t)).1)
  · exact mem_generateWarnings.mpr (Or.inr (Or.inl ⟨h2, h1, rfl⟩))
  · intro w hw hk
    exact absurd ((key w hw).1 hk) (not_lt.mpr h2)
  · intro t ht
    exact absurd ((key _ ht).1 (kindOf_overheatCritical t)) (not_lt.mpr h2)
  · intro w hw
    refine ⟨fun hk => ?_, fun hk => ?_⟩
    · have := (key w hw).1 hk
      linarith
    · have := ((key w hw).2 hk).2
      linarith
  · intro t
    refine ⟨fun ht => ?_, fun ht => ?_⟩
    · have := (key _ ht).1 (kindOf_overheatCritical t)
      linarith
    · have := ((key _ ht).2 (kindOf_overheatWarning t)).2
      linarith

/-- Instances of C4 at temperatures 250, 150 and 50 in Ay: at 250 the list holds the text
`KRİTİK: Sistem Aşırı Isındı (250°C)` and no warning-level overheat message. -/
theorem overheat_levels_witness :
    ("KRİTİK: Sistem Aşırı Isındı (250°C)" ∈ generateWarnings envAy 250 50 0 0
        ∧ ∀ w ∈ generateWarnings envAy 250 50 0 0, kindOf w ≠ some Kind.overheatWarning)
      ∧ ("UYARI: Motor Yüksek Sıcaklık (150°C)" ∈ generateWarnings envAy 150 50 0 0
        ∧ ∀ w ∈ generateWarnings envAy 150 50 0 0, kindOf w ≠ some Kind.overheatCritical)
      ∧ (∀ w ∈ generateWarnings envAy 50 50 0 0,
          kindOf w ≠ some Kind.overheatCritical ∧ kindOf w ≠ some Kind.overheatWarning) := by
  have r250 : mathRound 250 = 250 := by
    rw [mathRound_eq_iff]; norm_num
  have r150 : mathRound 150 = 150 := by
    rw [mathRound_eq_iff]; norm_num
  have e250 : overheatCritical 250 = "KRİTİK: Sistem Aşırı Isındı (250°C)" := by
    rw [overheatCritical, r250]; rfl
  have e150 : overheatWarning 150 = "UYARI: Motor Yüksek Sıcaklık (150°C)" := by
    rw [overheatWarning, r150]; rfl
  have a := (overheat_levels envAy 250 50 0 0).1 (by norm_num)
  have b := (overheat_levels envAy 150 50 0 0).2.1 (by norm_num) (by norm_num)
  have c := (overheat_levels envAy 50 50 0 0).2.2 (by norm_num)
  exact ⟨⟨e250 ▸ a.1, a.2.1⟩, ⟨e150 ▸ b.1, b.2.1⟩, c.1⟩

/-- C5: in an environment with atmosphere 0 and no orbital velocity, with the engine not
running, the temperature at progress 0 is `temperature.min` and at progress 1 it is
`temperature.max`. -/
theorem temperature_endpoints (host : Host) (env : Environment) (rocket : Rocket)
    (ha : env.atmosphere = 0) (ho : env.orbitalVelocity = none) :
    calculateTemperature host env rocket 0 false = env.temperature.min
      ∧ calculateTemperature host env rocket 1 false = env.temperature.max := by
  simp [calculateTemperature, ha, ho, truthyNum]

/-- Instances of C5: Ay and Boşluk have atmosphere 0 and no orbital velocity; their
temperatures run from −173 to 127 and from −270 to −200. -/
theorem temperature_endpoints_witness :
    (envAy.atmosphere = 0 ∧ envAy.orbitalVelocity = none
        ∧ calculateTemperature restHost envAy fastCarbonRocket 0 false = -173
        ∧ calculateTemperature restHost envAy fastCarbonRocket 1 false = 127)
      ∧ (envBosluk.atmosphere = 0 ∧ envBosluk.orbitalVelocity = none
        ∧ calculateTemperature restHost envBosluk fastCarbonRocket 0 false = -270
        ∧ calculateTemperature restHost envBosluk fastCarbonRocket 1 false = -200) := by
  have ha1 : envAy.atmosphere = 0 := by norm_num [envAy]
  have ha2 : envBosluk.atmosphere = 0 := by norm_num [envBosluk]
  have a := temperature_endpoints restHost envAy fastCarbonRocket ha1 rfl
  have b := temperature_endpoints restHost envBosluk fastCarbonRocket ha2 rfl
  exact ⟨⟨ha1, rfl, a.1, a.2⟩, ⟨ha2, rfl, b.1, b.2⟩⟩

/-- C6: in Boşluk, for a rocket of a material other than Karbonfiber and Kompozit, without
control system and with raw speed at most 100 after the engine update, a tick with
progress 1 and elapsed time 10 completes, its damage increment is exactly 1 (the radiation
rate 0.1 per second for 10 seconds; the temperature of the tick adds nothing), the stored
damage becomes min(100, damage + 1), which is damage + 1 whenever damage ≤ 99, and the
warnings of the tick contain the cosmic-radiation warning. -/
theorem deep_space_radiation_tick (host : Host) (s : PhysicsEngine) (rocket : Rocket)
    (b : Bool) (he : s.currentEnvironment = some (.entry envBosluk)) (hr : s.rocket = some rocket)
    (hm1 : rocket.material ≠ "Karbonfiber") (hm2 : rocket.material ≠ "Kompozit")
    (hc : rocket.hasControlSystem = false)
    (hv : velocityMagnitude host (movedRocket host s rocket 10) ≤ 100) :
    ∃ s2 : PhysicsEngine,
      updateSimulation host s 1 10 b = .normal s2 s2.simulationData
      ∧ calculateDamage host envBosluk (movedRocket host s rocket 10)
          s2.simulationData.temperature 1 10 = 1
      ∧ s2.simulationData.damage = min 100 (s.simulationData.damage + 1)
      ∧ (s.simulationData.damage ≤ 99 →
          s2.simulationData.damage = s.simulationData.damage + 1)
      ∧ cosmicWarning ∈ s2.simulationData.warnings := by
  obtain ⟨s2, h1, _, _, _, _, _, h7, _, h9, h10⟩ :=
    updateSimulation_of_rocket host s envBosluk rocket 1 10 b he hr
  have hd : calculateDamage host envBosluk (movedRocket host s rocket 10)
      (calculateTemperature host envBosluk (movedRocket host s rocket 10) 1 b) 1 10 = 1 := by
    rw [calculateDamage_eq, calculateTemperature_Bosluk_one]
    have hm1' : (movedRocket host s rocket 10).material ≠ "Karbonfiber" := hm1
    have hm2' : (movedRocket host s rocket 10).material ≠ "Kompozit" := hm2
    have hc' : (movedRocket host s rocket 10).hasControlSystem = false := hc
    have hv' : ¬ velocityMagnitude host (movedRocket host s rocket 10) > 100 := not_lt.mpr hv
    have hheat : heatTerm (if b = true ∧ (movedRocket host s rocket 10).currentFuel > 0
        then -50 else -200) = 0 := by
      split_ifs <;> norm_num [heatTerm]
    have hcold : coldTerm (if b = true ∧ (movedRocket host s rocket 10).currentFuel > 0
        then -50 else -200) = 0 := by
      split_ifs <;> norm_num [coldTerm]
    rw [hheat, hcold]
    simp only [radiationTerm, overspeedTerm, materialFactor, controlFactor,
      hm1', hm2', hc', hv', envBosluk, if_false]
    norm_num
  have hdam : s2.simulationData.damage = min 100 (s.simulationData.damage + 1) := by
    rw [h9, hd]
  refine ⟨s2, h1, ?_, hdam, ?_, ?_⟩
  · rw [h7]
    exact hd
  · intro h99
    rw [hdam]
    exact min_eq_right (by linarith)
  · rw [h10]
    exact mem_generateWarnings.mpr
      (Or.inr (Or.inr (Or.inr (Or.inr (Or.inr (Or.inr (Or.inr (Or.inr (Or.inr (Or.inr
        ⟨rfl, rfl⟩))))))))))

/-- Instance of C6: the first tick of a Boşluk session with the Mini CubeSat preset, at
rest, raises the damage from 0 to 1. -/
theorem deep_space_radiation_tick_witness :
    ∃ s2 : PhysicsEngine,
      updateSimulation restHost (sessionOf "Boşluk" miniCubeSat) 1 10 false
        = .normal s2 s2.simulationData
      ∧ s2.simulationData.damage = 1
      ∧ cosmicWarning ∈ s2.simulationData.warnings := by
  obtain ⟨_, he, hd, hr⟩ := sessionOf_miniCubeSat "Boşluk" envBosluk environments_Bosluk
  have hv : velocityMagnitude restHost
      (movedRocket restHost (sessionOf "Boşluk" miniCubeSat)
        { mass := 1.3, frictionAir := some (envBosluk.atmosphere * 0.001),
          position := { x := 400, y := 300 }, velocity := { x := 0, y := 0 },
          thrust := some 0.1, fuelCapacity := 100, currentFuel := 100,
          material := "Alüminyum", hasControlSystem := false } 10) ≤ 100 := by
    have h0 : (0 : ℚ) ^ 2 + 0 ^ 2 = 0 * 0 := by norm_num
    simp only [velocityMagnitude, movedRocket, restHost, hr, h0, Rat.sqrt_eq]
    norm_num
  obtain ⟨s2, h1, _, h3, h4, h5⟩ :=
    deep_space_radiation_tick restHost (sessionOf "Boşluk" miniCubeSat) _ false he hr
      (by decide) (by decide) rfl hv
  refine ⟨s2, h1, ?_, h5⟩
  have h0 : (sessionOf "Boşluk" miniCubeSat).simulationData.damage = 0 := by
    rw [hd]; rfl
  rw [h4 (by rw [h0]; norm_num), h0]
  norm_num

/-- C7: in Ay, `createRocket` with the Mini CubeSat preset completes with a rocket of mass
1.3, thrust 0.1 and fuel 100; with the engine running at progress 1/2 its temperature is
exactly 77; and `generateWarnings` at temperature 77, fuel 100 and any damage of at most 80
emits no message marked critical, whatever the speed. -/
theorem moon_cubesat_scenario (host : Host) (damage speed : ℚ) (hd : damage ≤ 80) :
    ∃ (s : PhysicsEngine) (rocket : Rocket),
      createRocket (initializeEnvironment PhysicsEngine.initial "Ay").state miniCubeSat
        = .normal s rocket
      ∧ s.currentEnvironment = some (.entry envAy)
      ∧ rocket.mass = 1.3 ∧ rocket.thrust = some 0.1 ∧ rocket.currentFuel = 100
      ∧ calculateTemperature host envAy rocket (1 / 2) true = 77
      ∧ ∀ w ∈ generateWarnings envAy 77 rocket.currentFuel damage speed,
          isCritical w = false := by
  obtain ⟨h1, he, _, _⟩ := sessionOf_miniCubeSat "Ay" envAy environments_Ay
  refine ⟨_, _, h1, he, rfl, rfl, rfl, ?_, ?_⟩
  · simp only [calculateTemperature, envAy, truthyNum]
    norm_num
  · intro w hw
    rcases mem_generateWarnings.mp hw with
      ⟨h, _⟩ | ⟨_, h, _⟩ | ⟨h, _⟩ | ⟨_, h, _⟩ | ⟨h, _⟩ | ⟨_, h, _⟩
        | ⟨h, _⟩ | ⟨_, _, rfl⟩ | ⟨_, rfl⟩ | ⟨_, rfl⟩ | ⟨_, rfl⟩
    · norm_num at h
    · norm_num at h
    · norm_num at h
    · norm_num at h
    · norm_num at h
    · norm_num at h
    · exact absurd h (not_lt.mpr hd)
    · simp [isCritical, startsWith, damageWarning, List.isPrefixOf]
    · simp [isCritical, startsWith, speedWarning, List.isPrefixOf]
    · simp [isCritical, startsWith, radiationWarning, List.isPrefixOf]
    · simp [isCritical, startsWith, cosmicWarning, List.isPrefixOf]

/-- Instance of C7 at damage 60 and speed 0: the only messages are the high-damage and the
high-radiation warnings. -/
theorem moon_cubesat_scenario_witness :
    (60 : ℚ) ≤ 80
      ∧ ∃ (s : PhysicsEngine) (rocket : Rocket),
        createRocket (initializeEnvironment PhysicsEngine.initial "Ay").state miniCubeSat
          = .normal s rocket
        ∧ s.currentEnvironment = some (.entry envAy)
        ∧ rocket.mass = 1.3 ∧ rocket.thrust = some 0.1 ∧ rocket.currentFuel = 100
        ∧ calculateTemperature restHost envAy rocket (1 / 2) true = 77
        ∧ ∀ w ∈ generateWarnings envAy 77 rocket.currentFuel 60 0, isCritical w = false :=
  ⟨by norm_num, moon_cubesat_scenario restHost 60 0 (by norm_num)⟩

/-- C8: `generateWarnings` emits the critical fuel message and no low-fuel warning when
fuel < 10; the low-fuel warning and no critical fuel message when 10 ≤ fuel < 25; and
neither when fuel ≥ 25.  The text of either message holds the decimal numeral of
`Math.round(fuel)`, an integer nearest to the fuel. -/
theorem fuel_levels (env : Environment) (temperature fuel damage speed : ℚ) :
    (fuel < 10 →
        fuelCritical fuel ∈ generateWarnings env temperature fuel damage speed
        ∧ (∀ w ∈ generateWarnings env temperature fuel damage speed,
            kindOf w ≠ some Kind.fuelWarning)
        ∧ ∀ x, fuelWarning x ∉ generateWarnings env temperature fuel damage speed)
      ∧ (10 ≤ fuel → fuel < 25 →
        fuelWarning fuel ∈ generateWarnings env temperature fuel damage speed
        ∧ (∀ w ∈ generateWarnings env temperature fuel damage speed,
            kindOf w ≠ some Kind.fuelCritical)
        ∧ ∀ x, fuelCritical x ∉ generateWarnings env temperature fuel damage speed)
      ∧ (25 ≤ fuel →
        (∀ w ∈ generateWarnings env temperature fuel damage speed,
            kindOf w ≠ some Kind.fuelCritical ∧ kindOf w ≠ some Kind.fuelWarning)
        ∧ ∀ x, fuelCritical x ∉ generateWarnings env temperature fuel damage speed
            ∧ fuelWarning x ∉ generateWarnings env temperature fuel damage speed)
      ∧ fuelCritical fuel
          = "KRİTİK: Yakıt Kritik Seviyede (" ++ toString (mathRound fuel) ++ "%)"
      ∧ fuelWarning fuel
          = "UYARI: Yakıt Seviyesi Düşük (" ++ toString (mathRound fuel) ++ "%)"
      ∧ |fuel - (mathRound fuel : ℚ)| ≤ 1 / 2 := by
  have key : ∀ w ∈ generateWarnings env temperature fuel damage speed,
      (kindOf w = some Kind.fuelCritical → fuel < 10)
      ∧ (kindOf w = some Kind.fuelWarning → 10 ≤ fuel ∧ fuel < 25) := by
    intro w hw
    rcases kindOf_of_mem_generateWarnings hw with
      ⟨_, h⟩ | ⟨_, _, h⟩ | ⟨_, h⟩ | ⟨_, _, h⟩ | ⟨h1, h⟩ | ⟨h1, h2, h⟩
        | ⟨_, h⟩ | ⟨_, _, h⟩ | ⟨_, h⟩ | ⟨_, h⟩ | ⟨_, h⟩ <;>
      simp [h, *]
  refine ⟨fun h => ⟨?_, ?_, ?_⟩, fun h1 h2 => ⟨?_, ?_, ?_⟩, fun h => ⟨?_, ?_⟩, rfl, rfl,
    mathRound_nearest fuel⟩
  · exact mem_generateWarnings.mpr (Or.inr (Or.inr (Or.inr (Or.inr (Or.inl ⟨h, rfl⟩)))))
  · intro w hw hk
    exact absurd h (not_lt.mpr ((key w hw).2 hk).1)
  · intro x hx
    exact absurd h (not_lt.mpr ((key _ hx).2 (kindOf_fuelWarning x)).1)
  · exact mem_generateWarnings.mpr
      (Or.inr (Or.inr (Or.inr (Or.inr (Or.inr (Or.inl ⟨h1, h2, rfl⟩))))))
  · intro w hw hk
    exact absurd ((key w hw).1 hk) (not_lt.mpr h1)
  · intro x hx
    exact absurd ((key _ hx).1 (kindOf_fuelCritical x)) (not_lt.mpr h1)
  · intro w hw
    refine ⟨fun hk => ?_, fun hk => ?_⟩
    · have := (key w hw).1 hk
      linarith
    · have := ((key w hw).2 hk).2
      linarith
  · intro x
    refine ⟨fun hx => ?_, fun hx => ?_⟩
    · have := (key _ hx).1 (kindOf_fuelCritical x)
      linarith
    · have := ((key _ hx).2 (kindOf_fuelWarning x)).2
      linarith

/-- Instances of C8 at fuel 8, 38/5 (rounded to 8), 12 and 60 in Ay. -/
theorem fuel_levels_witness :
    ("KRİTİK: Yakıt Kritik Seviyede (8%)" ∈ generateWarnings envAy 20 8 0 0
        ∧ ∀ w ∈ generateWarnings envAy 20 8 0 0, kindOf w ≠ some Kind.fuelWarning)
      ∧ "KRİTİK: Yakıt Kritik Seviyede (8%)" ∈ generateWarnings envAy 20 (38 / 5) 0 0
      ∧ ("UYARI: Yakıt Seviyesi Düşük (12%)" ∈ generateWarnings envAy 20 12 0 0
        ∧ ∀ w ∈ generateWarnings envAy 20 12 0 0, kindOf w ≠ some Kind.fuelCritical)
      ∧ (∀ w ∈ generateWarnings envAy 20 60 0 0,
          kindOf w ≠ some Kind.fuelCritical ∧ kindOf w ≠ some Kind.fuelWarning) := by
  have r8 : mathRound 8 = 8 := by
    rw [mathRound_eq_iff]; norm_num
  have r76 : mathRound (38 / 5) = 8 := by
    rw [mathRound_eq_iff]; norm_num
  have r12 : mathRound 12 = 12 := by
    rw [mathRound_eq_iff]; norm_num
  have e8 : fuelCritical 8 = "KRİTİK: Yakıt Kritik Seviyede (8%)" := by
    rw [fuelCritical, r8]; rfl
  have e76 : fuelCritical (38 / 5) = "KRİTİK: Yakıt Kritik Seviyede (8%)" := by
    rw [fuelCritical, r76]; rfl
  have e12 : fuelWarning 12 = "UYARI: Yakıt Seviyesi Düşük (12%)" := by
    rw [fuelWarning, r12]; rfl
  have a := (fuel_levels envAy 20 8 0 0).1 (by norm_num)
  have a2 := (fuel_levels envAy 20 (38 / 5) 0 0).1 (by norm_num)
  have b := (fuel_levels envAy 20 12 0 0).2.1 (by norm_num) (by norm_num)
  have c := (fuel_levels envAy 20 60 0 0).2.2.1 (by norm_num)
  exact ⟨⟨e8 ▸ a.1, a.2.1⟩, e76 ▸ a2.1, ⟨e12 ▸ b.1, b.2.1⟩, c.1⟩

/-- C9: every message of `generateWarnings` belongs to one of the categories
Overheat/Freeze, Fuel, Damage, Speed, Radiation, Cosmic, and whenever two emitted messages
have different categories, the one whose category comes earlier in this order has the
smaller index. -/
theorem warnings_category_order (env : Environment) (temperature fuel damage speed : ℚ) :
    (∀ w ∈ generateWarnings env temperature fuel damage speed, ∃ c, categoryOf w = some c)
      ∧ ∀ (i j : Nat) (hi : i < (generateWarnings env temperature fuel damage speed).length)
          (hj : j < (generateWarnings env temperature fuel damage speed).length)
          (ci cj : Category),
          categoryOf ((generateWarnings env temperature fuel damage speed).get ⟨i, hi⟩)
              = some ci →
          categoryOf ((generateWarnings env temperature fuel damage speed).get ⟨j, hj⟩)
              = some cj →
          ci.rank < cj.rank → i < j := by
  refine ⟨?_, ?_⟩
  · intro w hw
    rcases kindOf_of_mem_generateWarnings hw with
      ⟨_, h⟩ | ⟨_, _, h⟩ | ⟨_, h⟩ | ⟨_, _, h⟩ | ⟨_, h⟩ | ⟨_, _, h⟩
        | ⟨_, h⟩ | ⟨_, _, h⟩ | ⟨_, h⟩ | ⟨_, h⟩ | ⟨_, h⟩ <;>
      exact ⟨_, by rw [categoryOf, h]; rfl⟩
  · intro i j hi hj ci cj hci hcj hlt
    by_contra hij
    have hji : j ≤ i := not_lt.mp hij
    have hri : rankOf ((generateWarnings env temperature fuel damage speed).get ⟨i, hi⟩)
        = ci.rank := by simp only [rankOf, hci]
    have hrj : rankOf ((generateWarnings env temperature fuel damage speed).get ⟨j, hj⟩)
        = cj.rank := by simp only [rankOf, hcj]
    rcases Nat.lt_or_eq_of_le hji with h | h
    · have := List.pairwise_iff_getElem.mp
        (generateWarnings_ordered env temperature fuel damage speed) j i hj hi h
      simp only [List.get_eq_getElem] at hri hrj
      omega
    · subst h
      rw [hri] at hrj
      omega

/-- Instance of C9: in Boşluk at temperature 250, fuel 8, damage 90 and speed 300 the
message at index 0 is of category temperature and the message at index 5 of category
cosmic. -/
theorem warnings_category_order_witness :
    ∃ (hi : 0 < (generateWarnings envBosluk 250 8 90 300).length)
      (hj : 5 < (generateWarnings envBosluk 250 8 90 300).length),
      categoryOf ((generateWarnings envBosluk 250 8 90 300).get ⟨0, hi⟩)
          = some Category.temperature
        ∧ categoryOf ((generateWarnings envBosluk 250 8 90 300).get ⟨5, hj⟩)
          = some Category.cosmic
        ∧ Category.temperature.rank < Category.cosmic.rank
        ∧ 0 < 5 := by
  have hi : 0 < (generateWarnings envBosluk 250 8 90 300).length := by
    rw [generateWarnings_all_six]; decide
  have hj : 5 < (generateWarnings envBosluk 250 8 90 300).length := by
    rw [generateWarnings_all_six]; decide
  have h0 : categoryOf ((generateWarnings envBosluk 250 8 90 300).get ⟨0, hi⟩)
      = some Category.temperature := by
    simp only [List.get_eq_getElem, generateWarnings_all_six, List.getElem_cons_zero,
      categoryOf, kindOf_overheatCritical]
    rfl
  have h5 : categoryOf ((generateWarnings envBosluk 250 8 90 300).get ⟨5, hj⟩)
      = some Category.cosmic := by
    simp only [List.get_eq_getElem, generateWarnings_all_six, List.getElem_cons_succ,
      List.getElem_cons_zero, categoryOf, kindOf_cosmicWarning]
    rfl
  exact ⟨hi, hj, h0, h5, by decide,
    (warnings_category_order envBosluk 250 8 90 300).2 0 5 hi hj _ _ h0 h5 (by decide)⟩

/-- C10: the code at the failing input.  In Ay with the Mini CubeSat preset and a full
tank, one call of `applyThrust` with intensity 1 leaves the fuel at 99.9 whatever time
elapses; two calls followed by a tick of one second leave 99.8, in the rocket and in the
snapshot of the tick, where the rate of 0.1 % per second times the elapsed second leaves
99.9. -/
theorem thrust_burns_per_call :
    fuelOf (applyThrust (sessionOf "Ay" miniCubeSat) { x := 0, y := -1 } 1).state
        = some (999 / 10)
      ∧ fuelOf (applyThrust
            (applyThrust (sessionOf "Ay" miniCubeSat) { x := 0, y := -1 } 1).state
            { x := 0, y := -1 } 1).state
        = some (499 / 5)
      ∧ (updateSimulation restHost
            (applyThrust
              (applyThrust (sessionOf "Ay" miniCubeSat) { x := 0, y := -1 } 1).state
              { x := 0, y := -1 } 1).state
            (1 / 2) 1 true).returned.map (fun d => d.fuel)
        = some (499 / 5)
      ∧ specFuelAfterThrust envAy 100 1 1 = 999 / 10 := by
  obtain ⟨_, he, _, hr⟩ := sessionOf_miniCubeSat "Ay" envAy environments_Ay
  have hc : calculateFuelConsumption envAy 1 = 1 / 10 := by
    norm_num [calculateFuelConsumption, envAy]
  obtain ⟨s1, a1, a2, a3, a4, _⟩ :=
    applyThrust_fuel_per_call (sessionOf "Ay" miniCubeSat) envAy _ { x := 0, y := -1 } 1
      he hr (by norm_num)
  have f1 : max (0 : ℚ) (100 - calculateFuelConsumption envAy 1) = 999 / 10 := by
    rw [hc]; norm_num
  simp only [f1] at a3 a4
  obtain ⟨s2, b1, b2, b3, b4, _⟩ :=
    applyThrust_fuel_per_call s1 envAy _ { x := 0, y := -1 } 1 a2 a3 (by norm_num)
  have f2 : max (0 : ℚ) (999 / 10 - calculateFuelConsumption envAy 1) = 499 / 5 := by
    rw [hc]; norm_num
  simp only [f2] at b3 b4
  obtain ⟨s3, c1, _, _, _, _, _, _, c8, _⟩ :=
    updateSimulation_of_rocket restHost s2 envAy _ (1 / 2) 1 true b2 b3
  have e1 : (applyThrust (sessionOf "Ay" miniCubeSat) { x := 0, y := -1 } 1).state = s1 := by
    rw [a1]; rfl
  have e2 : (applyThrust s1 { x := 0, y := -1 } 1).state = s2 := by
    rw [b1]; rfl
  refine ⟨?_, ?_, ?_, ?_⟩
  · rw [e1]; exact a4
  · rw [e1, e2]; exact b4
  · rw [e1, e2, c1]
    simp only [Completion.returned, Option.map_some', c8]
  · rw [specFuelAfterThrust, hc]; norm_num

/-- C11: when there is no rocket, or the rocket's fuel is at most 0, `applyThrust`
completes and returns the state it received, for every direction and intensity: no force
is handed to the engine and the fuel and every other field are unchanged. -/
theorem thrust_without_fuel_is_noop (s : PhysicsEngine) (direction : Vec) (intensity : ℚ)
    (h : s.rocket = none ∨ ∃ rocket, s.rocket = some rocket ∧ rocket.currentFuel ≤ 0) :
    applyThrust s direction intensity = .normal s ()
      ∧ (applyThrust s direction intensity).state.forces = s.forces
      ∧ fuelOf (applyThrust s direction intensity).state = fuelOf s := by
  have key : applyThrust s direction intensity = .normal s () := by
    rcases h with h | ⟨rocket, hr, hf⟩
    · exact applyThrust_of_no_rocket s direction intensity h
    · exact applyThrust_of_empty s rocket direction intensity hr hf
  rw [key]
  exact ⟨rfl, rfl, rfl⟩

/-- Instances of C11: a new engine object without rocket, and a rocket with an empty
tank. -/
theorem thrust_without_fuel_is_noop_witness :
    applyThrust PhysicsEngine.initial { x := 0, y := -1 } 1
        = .normal PhysicsEngine.initial ()
      ∧ applyThrust emptyTankState { x := 1, y := 0 } (1 / 2) = .normal emptyTankState ()
      ∧ (applyThrust emptyTankState { x := 1, y := 0 } (1 / 2)).state.forces = [] :=
  ⟨(thrust_without_fuel_is_noop PhysicsEngine.initial { x := 0, y := -1 } 1
      (Or.inl rfl)).1,
    (thrust_without_fuel_is_noop emptyTankState { x := 1, y := 0 } (1 / 2)
      (Or.inr ⟨_, rfl, le_refl _⟩)).1,
    (thrust_without_fuel_is_noop emptyTankState { x := 1, y := 0 } (1 / 2)
      (Or.inr ⟨_, rfl, le_refl _⟩)).2.1⟩

/-- C12, as stated, fails: `toString` is not a key of the table, yet
`initializeEnvironment("toString")` completes without throwing, because the lookup finds
the function that the table inherits from `Object.prototype`. -/
theorem initialize_inherited_name_counterexample :
    "toString" ∉ catalogKeys
      ∧ initializeEnvironment PhysicsEngine.initial "toString"
        = .normal
            { PhysicsEngine.initial with
              currentEnvironment := some (.inherited "toString"),
              gravity := { x := 0, y := none } } () := by
  refine ⟨by decide, ?_⟩
  simp [initializeEnvironment, environmentsLookup, environments, objectPrototypeKeys]

/-- C12, amended: `initializeEnvironment(name)` throws, leaving the current environment
undefined, for every name that is neither one of the four keys nor the name of a property
inherited from `Object.prototype`; for each of the four keys it completes and selects the
entry of that key as the current environment (setting the gravity to the entry's gravity
divided by 100). -/
theorem initialize_outcomes (s : PhysicsEngine) (name : String) :
    (name ∉ catalogKeys → name ∉ objectPrototypeKeys →
        initializeEnvironment s name = .throwTypeError { s with currentEnvironment := none })
      ∧ (name ∈ catalogKeys →
        ∃ env, environments name = some env ∧ env ∈ catalog
          ∧ initializeEnvironment s name
            = .normal
                { s with
                  currentEnvironment := some (.entry env),
                  gravity := { x := 0, y := some (env.gravity / 100) } } ())
      ∧ environments "LEO" = some envLEO ∧ environments "Ay" = some envAy
      ∧ environments "Mars" = some envMars ∧ environments "Boşluk" = some envBosluk := by
  refine ⟨?_, ?_, environments_LEO, environments_Ay, environments_Mars, environments_Bosluk⟩
  · intro h1 h2
    simp [initializeEnvironment, environmentsLookup, environments_of_not_key h1, h2]
  · intro h
    have hex : ∃ env, environments name = some env ∧ env ∈ catalog := by
      simp only [catalogKeys, List.mem_cons, List.mem_singleton, List.not_mem_nil,
        or_false] at h
      rcases h with rfl | rfl | rfl | rfl
      · exact ⟨envLEO, environments_LEO, by simp [catalog]⟩
      · exact ⟨envAy, environments_Ay, by simp [catalog]⟩
      · exact ⟨envMars, environments_Mars, by simp [catalog]⟩
      · exact ⟨envBosluk, environments_Bosluk, by simp [catalog]⟩
    obtain ⟨env, he, hc⟩ := hex
    refine ⟨env, he, hc, ?_⟩
    simp [initializeEnvironment, environmentsLookup, he]

/-- Instances of C12 (amended): the name `Jupiter` throws, the key `Mars` selects the
entry of Mars. -/
theorem initialize_outcomes_witness :
    initializeEnvironment PhysicsEngine.initial "Jupiter"
        = .throwTypeError { PhysicsEngine.initial with currentEnvironment := none }
      ∧ ∃ env, environments "Mars" = some env ∧ env ∈ catalog
          ∧ initializeEnvironment PhysicsEngine.initial "Mars"
            = .normal
                { PhysicsEngine.initial with
                  currentEnvironment := some (.entry env),
                  gravity := { x := 0, y := some (env.gravity / 100) } } () :=
  ⟨(initialize_outcomes PhysicsEngine.initial "Jupiter").1 (by decide) (by decide),
    (initialize_outcomes PhysicsEngine.initial "Mars").2.1 (by decide)⟩

/-- C13, as stated, fails: in Ay, `createRocket` with the preset model `Falcon 9`, which is
not in the table, completes and produces a rocket of mass 100 and thrust 1000. -/
theorem unknown_preset_counterexample :
    (∀ m ∈ presetModels, unknownPreset.model ≠ some m)
      ∧ ∃ (s : PhysicsEngine) (rocket : Rocket),
        createRocket (initializeEnvironment PhysicsEngine.initial "Ay").state unknownPreset
          = .normal s rocket
        ∧ s.rocket = some rocket
        ∧ rocket.mass = 100 ∧ rocket.thrust = some 1000 := by
  refine ⟨by decide, ?_⟩
  obtain ⟨rocket, h1, h2, h3, _⟩ :=
    createRocket_of_environment (initializeEnvironment PhysicsEngine.initial "Ay").state
      (.entry envAy) unknownPreset
      (by simp [initializeEnvironment, environmentsLookup, environments, Completion.state])
  rw [presetMassThrust_of_unknown unknownPreset (by decide) (by decide)] at h2 h3
  exact ⟨_, rocket, h1, rfl, h2.trans (bodyMass_of_ne_zero (by norm_num)), h3⟩

/-- C13, amended: with a current environment, `createRocket` with a non-manual
specification whose model is not one of the recognised presets does not fail; it stores
and returns a vehicle with the default mass 100, the default thrust 1000 and a full
tank. -/
theorem unknown_preset_gets_defaults (s : PhysicsEngine) (ref : EnvRef)
    (rocketData : RocketData) (he : s.currentEnvironment = some ref)
    (ht : rocketData.type ≠ "manual")
    (hm : ∀ m ∈ presetModels, rocketData.model ≠ some m) :
    ∃ rocket : Rocket,
      createRocket s rocketData = .normal { s with rocket := some rocket } rocket
      ∧ rocket.mass = 100 ∧ rocket.thrust = some 1000
      ∧ rocket.currentFuel = 100 := by
  obtain ⟨rocket, h1, h2, h3, h4⟩ := createRocket_of_environment s ref rocketData he
  rw [presetMassThrust_of_unknown rocketData ht hm] at h2 h3
  exact ⟨rocket, h1, h2.trans (bodyMass_of_ne_zero (by norm_num)), h3, h4⟩

/-- Instance of C13 (amended): the model `Falcon 9` after `initializeEnvironment("Ay")`. -/
theorem unknown_preset_gets_defaults_witness :
    ∃ rocket : Rocket,
      createRocket (initializeEnvironment PhysicsEngine.initial "Ay").state unknownPreset
        = .normal
            { (initializeEnvironment PhysicsEngine.initial "Ay").state with
              rocket := some rocket } rocket
      ∧ rocket.mass = 100 ∧ rocket.thrust = some 1000
      ∧ rocket.currentFuel = 100 :=
  unknown_preset_gets_defaults (initializeEnvironment PhysicsEngine.initial "Ay").state
    (.entry envAy) unknownPreset
    (by simp [initializeEnvironment, environmentsLookup, environments, Completion.state])
    (by decide) (by decide)

/-- C14, as stated, fails: in Ay, `createRocket` with a manual specification of weight −5
and motor power 0 completes and produces a rocket of mass −5 and thrust 0. -/
theorem manual_spec_counterexample :
    badManual.type = "manual" ∧ badManual.weight = some (-5)
      ∧ badManual.motorPower = some 0
      ∧ ∃ (s : PhysicsEngine) (rocket : Rocket),
        createRocket (initializeEnvironment PhysicsEngine.initial "Ay").state badManual
          = .normal s rocket
        ∧ s.rocket = some rocket
        ∧ rocket.mass = -5 ∧ rocket.thrust = some 0 := by
  refine ⟨rfl, rfl, rfl, ?_⟩
  obtain ⟨rocket, h1, h2, h3, _⟩ :=
    createRocket_of_environment (initializeEnvironment PhysicsEngine.initial "Ay").state
      (.entry envAy) badManual
      (by simp [initializeEnvironment, environmentsLookup, environments, Completion.state])
  rw [presetMassThrust_of_manual badManual rfl] at h2 h3
  exact ⟨_, rocket, h1, rfl, h2.trans (bodyMass_of_ne_zero (by norm_num [badManual])), h3⟩

/-- C14, amended: with a current environment, `createRocket` with a manual specification
does not fail, also when the weight or the motor power is missing or not positive: it
stores and returns a vehicle; and when both are present and positive, the mass of the
vehicle is the weight and its thrust is the motor power. -/
theorem manual_spec_is_not_validated (s : PhysicsEngine) (ref : EnvRef)
    (rocketData : RocketData) (he : s.currentEnvironment = some ref)
    (ht : rocketData.type = "manual") :
    ∃ rocket : Rocket,
      createRocket s rocketData = .normal { s with rocket := some rocket } rocket
      ∧ (∀ w p : ℚ, rocketData.weight = some w → rocketData.motorPower = some p →
          0 < w → 0 < p → rocket.mass = w ∧ rocket.thrust = some p) := by
  obtain ⟨rocket, h1, h2, h3, _⟩ := createRocket_of_environment s ref rocketData he
  rw [presetMassThrust_of_manual rocketData ht] at h2 h3
  refine ⟨rocket, h1, ?_⟩
  intro w p hw hp hw0 _
  rw [hw] at h2
  exact ⟨h2.trans (bodyMass_of_ne_zero (ne_of_gt hw0)), h3.trans hp⟩

/-- Instances of C14 (amended) after `initializeEnvironment("Ay")`: weight 25 and motor
power 1000 give a vehicle of mass 25 and thrust 1000; a specification without weight and
motor power gives a vehicle all the same. -/
theorem manual_spec_is_not_validated_witness :
    (∃ rocket : Rocket,
        createRocket (initializeEnvironment PhysicsEngine.initial "Ay").state
            { type := "manual", weight := some 25, motorPower := some 1000, model := none,
              material := none, hasControlSystem := none }
          = .normal
              { (initializeEnvironment PhysicsEngine.initial "Ay").state with
                rocket := some rocket } rocket
        ∧ rocket.mass = 25 ∧ rocket.thrust = some 1000)
      ∧ ∃ rocket : Rocket,
        createRocket (initializeEnvironment PhysicsEngine.initial "Ay").state
            { type := "manual", weight := none, motorPower := none, model := none,
              material := none, hasControlSystem := none }
          = .normal
              { (initializeEnvironment PhysicsEngine.initial "Ay").state with
                rocket := some rocket } rocket := by
  have he : (initializeEnvironment PhysicsEngine.initial "Ay").state.currentEnvironment
      = some (.entry envAy) := by
    simp [initializeEnvironment, environmentsLookup, environments, Completion.state]
  constructor
  · obtain ⟨rocket, h1, h4⟩ :=
      manual_spec_is_not_validated (initializeEnvironment PhysicsEngine.initial "Ay").state
        (.entry envAy)
        { type := "manual", weight := some 25, motorPower := some 1000, model := none,
          material := none, hasControlSystem := none } he rfl
    exact ⟨rocket, h1, h4 25 1000 rfl rfl (by norm_num) (by norm_num)⟩
  · obtain ⟨rocket, h1, _⟩ :=
      manual_spec_is_not_validated (initializeEnvironment PhysicsEngine.initial "Ay").state
        (.entry envAy)
        { type := "manual", weight := none, motorPower := none, model := none,
          material := none, hasControlSystem := none } he rfl
    exact ⟨rocket, h1⟩

/-- C20: with radiation, progress and elapsed time not negative, for every temperature and
speed, the increment of `calculateDamage` for Karbonfiber is at most that for Kompozit,
which is at most that for a default material, and the increment with a control system is
at most the increment without one, all other inputs being equal. -/
theorem protection_never_increases_damage (host : Host) (env : Environment) (rocket : Rocket)
    (material : String) (temperature progress deltaTime : ℚ)
    (h1 : material ≠ "Karbonfiber") (h2 : material ≠ "Kompozit")
    (hr : 0 ≤ env.radiation) (hp : 0 ≤ progress) (hd : 0 ≤ deltaTime) :
    (∀ control : Bool,
        calculateDamage host env
            { rocket with material := "Karbonfiber", hasControlSystem := control }
            temperature progress deltaTime
          ≤ calculateDamage host env
              { rocket with material := "Kompozit", hasControlSystem := control }
              temperature progress deltaTime
        ∧ calculateDamage host env
            { rocket with material := "Kompozit", hasControlSystem := control }
            temperature progress deltaTime
          ≤ calculateDamage host env
              { rocket with material := material, hasControlSystem := control }
              temperature progress deltaTime)
      ∧ ∀ anyMaterial : String,
        calculateDamage host env
            { rocket with material := anyMaterial, hasControlSystem := true }
            temperature progress deltaTime
          ≤ calculateDamage host env
              { rocket with material := anyMaterial, hasControlSystem := false }
              temperature progress deltaTime := by
  have hm := materialFactor_default h1 h2
  have hb : 0 ≤ heatTerm temperature + coldTerm temperature + radiationTerm env progress := by
    have a := heatTerm_nonneg temperature
    have b := coldTerm_nonneg temperature
    have c : 0 ≤ radiationTerm env progress := by
      unfold radiationTerm
      positivity
    linarith
  refine ⟨fun control => ⟨?_, ?_⟩, fun anyMaterial => ?_⟩
  · rw [calculateDamage_with, calculateDamage_with, materialFactor_Karbonfiber,
      materialFactor_Kompozit]
    have hc := controlFactor_pos control
    have : (heatTerm temperature + coldTerm temperature + radiationTerm env progress) * 0.6
          * controlFactor control
        ≤ (heatTerm temperature + coldTerm temperature + radiationTerm env progress) * 0.8
          * controlFactor control := by
      apply mul_le_mul_of_nonneg_right _ hc.le
      nlinarith
    exact mul_le_mul_of_nonneg_right (by linarith) hd
  · rw [calculateDamage_with, calculateDamage_with, materialFactor_Kompozit, hm]
    have hc := controlFactor_pos control
    have : (heatTerm temperature + coldTerm temperature + radiationTerm env progress) * 0.8
          * controlFactor control
        ≤ (heatTerm temperature + coldTerm temperature + radiationTerm env progress) * 1
          * controlFactor control := by
      apply mul_le_mul_of_nonneg_right _ hc.le
      nlinarith
    exact mul_le_mul_of_nonneg_right (by linarith) hd
  · rw [calculateDamage_with, calculateDamage_with, controlFactor_true, controlFactor_false]
    have hmf := materialFactor_pos anyMaterial
    have hprod : 0 ≤ (heatTerm temperature + coldTerm temperature
        + radiationTerm env progress) * materialFactor anyMaterial :=
      mul_nonneg hb hmf.le
    exact mul_le_mul_of_nonneg_right (by nlinarith) hd

/-- Instance of C20 in Boşluk at temperature 250, progress 1, for one second, at raw speed
200: every hypothesis holds and the four increments are ordered. -/
theorem protection_never_increases_damage_witness :
    (0 : ℚ) ≤ envBosluk.radiation
      ∧ calculateDamage restHost envBosluk
          { fastCarbonRocket with material := "Karbonfiber", hasControlSystem := false }
          250 1 1
        ≤ calculateDamage restHost envBosluk
            { fastCarbonRocket with material := "Kompozit", hasControlSystem := false }
            250 1 1
      ∧ calculateDamage restHost envBosluk
          { fastCarbonRocket with material := "Kompozit", hasControlSystem := false }
          250 1 1
        ≤ calculateDamage restHost envBosluk
            { fastCarbonRocket with material := "Alüminyum", hasControlSystem := false }
            250 1 1
      ∧ calculateDamage restHost envBosluk
          { fastCarbonRocket with material := "Alüminyum", hasControlSystem := true }
          250 1 1
        ≤ calculateDamage restHost envBosluk
            { fastCarbonRocket with material := "Alüminyum", hasControlSystem := false }
            250 1 1 := by
  have hr : (0 : ℚ) ≤ envBosluk.radiation := by norm_num [envBosluk]
  have h := protection_never_increases_damage restHost envBosluk fastCarbonRocket
    "Alüminyum" 250 1 1 (by decide) (by decide) hr (by norm_num) (by norm_num)
  exact ⟨hr, (h.1 false).1, (h.1 false).2, h.2 "Alüminyum"⟩

/-- C18: in every tick with a rocket and an environment, the high-speed warning is among
the warnings of the tick exactly when the raw velocity magnitude is above 2 (the snapshot
speed, magnitude × 100, is compared with 200); the overspeed term of the damage increment
is positive exactly when the raw magnitude is above 100; hence every tick with a positive
overspeed term emits the high-speed warning. -/
theorem speed_warning_and_overspeed (host : Host) (s : PhysicsEngine) (env : Environment)
    (body : Rocket) (progress deltaTime : ℚ) (b : Bool)
    (he : s.currentEnvironment = some (.entry env)) (hr : s.rocket = some body) :
    ∃ s2 : PhysicsEngine,
      updateSimulation host s progress deltaTime b = .normal s2 s2.simulationData
      ∧ s2.simulationData.speed
          = velocityMagnitude host (movedRocket host s body deltaTime) * 100
      ∧ (speedWarning ∈ s2.simulationData.warnings
          ↔ 2 < velocityMagnitude host (movedRocket host s body deltaTime))
      ∧ calculateDamage host env (movedRocket host s body deltaTime)
            s2.simulationData.temperature progress deltaTime
          = ((heatTerm s2.simulationData.temperature + coldTerm s2.simulationData.temperature
                + radiationTerm env progress)
              * materialFactor body.material * controlFactor body.hasControlSystem
            + (if velocityMagnitude host (movedRocket host s body deltaTime) > 100
                then (velocityMagnitude host (movedRocket host s body deltaTime) - 100) * 0.001
                else 0)) * deltaTime
      ∧ (0 < (if velocityMagnitude host (movedRocket host s body deltaTime) > 100
                then (velocityMagnitude host (movedRocket host s body deltaTime) - 100) * 0.001
                else 0)
          ↔ 100 < velocityMagnitude host (movedRocket host s body deltaTime))
      ∧ (100 < velocityMagnitude host (movedRocket host s body deltaTime) →
          speedWarning ∈ s2.simulationData.warnings) := by
  obtain ⟨s2, h1, _, _, _, _, h6, _, _, _, h10⟩ :=
    updateSimulation_of_rocket host s env body progress deltaTime b he hr
  have hiff : speedWarning ∈ s2.simulationData.warnings
      ↔ 2 < velocityMagnitude host (movedRocket host s body deltaTime) := by
    rw [h10, speedWarning_mem_iff, h6]
    constructor <;> intro h <;> linarith
  refine ⟨s2, h1, h6, hiff, ?_, overspeedTerm_pos_iff _, ?_⟩
  · exact calculateDamage_eq host env (movedRocket host s body deltaTime) _ _ _
  · intro h
    exact hiff.mpr (by linarith)

/-- Instances of C18: the first tick of a Boşluk session with the Mini CubeSat preset at
rest completes without the high-speed warning; a tick of a rocket that moves at 200 engine
units, where overspeed damage accrues, emits it. -/
theorem speed_warning_and_overspeed_witness :
    (∃ s2 : PhysicsEngine,
        updateSimulation restHost (sessionOf "Boşluk" miniCubeSat) 1 10 false
          = .normal s2 s2.simulationData
        ∧ s2.simulationData.speed = 0
        ∧ speedWarning ∉ s2.simulationData.warnings)
      ∧ ∃ s3 : PhysicsEngine,
        updateSimulation restHost fastState (1 / 2) 1 true = .normal s3 s3.simulationData
        ∧ s3.simulationData.speed = 20000
        ∧ speedWarning ∈ s3.simulationData.warnings := by
  constructor
  · obtain ⟨_, he, _, hr⟩ := sessionOf_miniCubeSat "Boşluk" envBosluk environments_Bosluk
    obtain ⟨s2, h1, h2, h3, _⟩ :=
      speed_warning_and_overspeed restHost (sessionOf "Boşluk" miniCubeSat) envBosluk _ 1 10
        false he hr
    have hv : velocityMagnitude restHost
        (movedRocket restHost (sessionOf "Boşluk" miniCubeSat)
          { mass := 1.3, frictionAir := some (envBosluk.atmosphere * 0.001),
            position := { x := 400, y := 300 }, velocity := { x := 0, y := 0 },
            thrust := some 0.1, fuelCapacity := 100, currentFuel := 100,
            material := "Alüminyum", hasControlSystem := false } 10) = 0 := by
      have h0 : (0 : ℚ) ^ 2 + 0 ^ 2 = 0 * 0 := by norm_num
      simp only [velocityMagnitude, movedRocket, restHost, hr, h0, Rat.sqrt_eq]
      norm_num
    refine ⟨s2, h1, ?_, ?_⟩
    · rw [h2, hv]; norm_num
    · rw [h3, hv]; norm_num
  · obtain ⟨s3, h1, h2, _, _, _, h6⟩ :=
      speed_warning_and_overspeed restHost fastState envAy fastCarbonRocket (1 / 2) 1 true
        rfl rfl
    have hv : velocityMagnitude restHost (movedRocket restHost fastState fastCarbonRocket 1)
        = 200 :=
      velocityMagnitude_fastCarbonRocket
    refine ⟨s3, h1, ?_, h6 (by rw [hv]; norm_num)⟩
    rw [h2, hv]; norm_num

/-- C19: `generateWarnings` returns at most 6 messages: at most one message of each of the
categories temperature, fuel, damage, speed, radiation and cosmic; in particular an
overheat message and a freeze message are never emitted together. -/
theorem at_most_six_warnings (env : Environment) (temperature fuel damage speed : ℚ) :
    (generateWarnings env temperature fuel damage speed).length ≤ 6
      ∧ (∀ c : Category,
          (generateWarnings env temperature fuel damage speed).countP
            (fun w => decide (categoryOf w = some c)) ≤ 1)
      ∧ ¬ ((∃ w ∈ generateWarnings env temperature fuel damage speed,
              kindOf w = some Kind.overheatCritical ∨ kindOf w = some Kind.overheatWarning)
          ∧ ∃ w ∈ generateWarnings env temperature fuel damage speed,
              kindOf w = some Kind.freezeCritical ∨ kindOf w = some Kind.freezeWarning) := by
  have ht := temperature_blocks_length temperature
  have hf : (fuelPart fuel).length ≤ 1 := two_block_length _ _
  have hd : (damagePart damage).length ≤ 1 := two_block_length _ _
  have hs : (speedPart speed).length ≤ 1 := one_block_length _
  have hr : (radiationPart env).length ≤ 1 := one_block_length _
  have hc : (cosmicPart env).length ≤ 1 := one_block_length _
  refine ⟨?_, ?_, ?_⟩
  · rw [generateWarnings_eq]
    simp only [List.length_append]
    omega
  · intro c
    rw [generateWarnings_eq]
    simp only [List.countP_append]
    rw [countP_category_block _ Category.temperature c (fun w hw => categoryOf_overheatPart hw),
      countP_category_block _ Category.temperature c (fun w hw => categoryOf_freezePart hw),
      countP_category_block _ Category.fuel c (fun w hw => categoryOf_fuelPart hw),
      countP_category_block _ Category.damage c (fun w hw => categoryOf_damagePart hw),
      countP_category_block _ Category.speed c (fun w hw => categoryOf_speedPart hw),
      countP_category_block _ Category.radiation c (fun w hw => categoryOf_radiationPart hw),
      countP_category_block _ Category.cosmic c (fun w hw => categoryOf_cosmicPart hw)]
    cases c <;> simp <;> omega
  · rintro ⟨⟨w1, hw1, hk1⟩, ⟨w2, hw2, hk2⟩⟩
    have hhot : 100 < temperature := by
      rcases kindOf_of_mem_generateWarnings hw1 with
        ⟨h, _⟩ | ⟨_, h, _⟩ | ⟨_, h⟩ | ⟨_, _, h⟩ | ⟨_, h⟩ | ⟨_, _, h⟩
          | ⟨_, h⟩ | ⟨_, _, h⟩ | ⟨_, h⟩ | ⟨_, h⟩ | ⟨_, h⟩
      · linarith
      · exact h
      all_goals (rcases hk1 with hk1 | hk1 <;> rw [hk1] at h <;> exact absurd h (by decide))
    have hcold : temperature < -200 := by
      rcases kindOf_of_mem_generateWarnings hw2 with
        ⟨_, h⟩ | ⟨_, _, h⟩ | ⟨h, _⟩ | ⟨_, h, _⟩ | ⟨_, h⟩ | ⟨_, _, h⟩
          | ⟨_, h⟩ | ⟨_, _, h⟩ | ⟨_, h⟩ | ⟨_, h⟩ | ⟨_, h⟩
      · rcases hk2 with hk2 | hk2 <;> rw [hk2] at h <;> exact absurd h (by decide)
      · rcases hk2 with hk2 | hk2 <;> rw [hk2] at h <;> exact absurd h (by decide)
      · linarith
      · exact h
      all_goals (rcases hk2 with hk2 | hk2 <;> rw [hk2] at h <;> exact absurd h (by decide))
    linarith

/-- C16, as stated, fails: a new engine object and the same object with the stored
warning `stale` differ only in their stored warnings, yet the same tick returns different
snapshots from them: without a rocket the tick returns the stored snapshot, the stored
warnings included. -/
theorem stale_warnings_counterexample :
    DifferOnlyInWarnings PhysicsEngine.initial staleState
      ∧ (updateSimulation restHost PhysicsEngine.initial (1 / 2) 1 false).returned.map
          (fun d => d.warnings) = some []
      ∧ (updateSimulation restHost staleState (1 / 2) 1 false).returned.map
          (fun d => d.warnings) = some ["stale"]
      ∧ (updateSimulation restHost PhysicsEngine.initial (1 / 2) 1 false).returned
        ≠ (updateSimulation restHost staleState (1 / 2) 1 false).returned := by
  have h1 := updateSimulation_of_no_rocket restHost PhysicsEngine.initial (1 / 2) 1 false rfl
  have h2 := updateSimulation_of_no_rocket restHost staleState (1 / 2) 1 false rfl
  refine ⟨⟨rfl, rfl, rfl, rfl, rfl, rfl, rfl, rfl⟩, ?_, ?_, ?_⟩
  · rw [h1]; rfl
  · rw [h2]; rfl
  · rw [h1, h2]
    simp [Completion.returned, staleState, PhysicsEngine.initial]

/-- C16, amended: a call of `generateWarnings` leaves the state as it found it, and a
second call with the same arguments returns what the first returned.  In a state with a
rocket a tick does not read the stored warnings: for two states that differ only in their
stored warnings the same tick returns the same snapshot (or throws in both), the states
after it are equal when it completes, and with an environment the warnings it stores are
those that `generateWarnings` computes from the temperature, fuel, damage and speed of the
new snapshot.  In a state without a rocket the tick returns the stored snapshot
unchanged. -/
theorem warnings_recomputed_with_rocket (host : Host) (s1 s2 : PhysicsEngine)
    (progress deltaTime : ℚ) (b : Bool) (temperature fuel damage speed : ℚ)
    (hd : DifferOnlyInWarnings s1 s2) :
    (generateWarningsCall s1 temperature fuel damage speed).state = s1
      ∧ generateWarningsCall (generateWarningsCall s1 temperature fuel damage speed).state
          temperature fuel damage speed
        = generateWarningsCall s1 temperature fuel damage speed
      ∧ (∀ body, s1.rocket = some body →
          (updateSimulation host s1 progress deltaTime b).returned
              = (updateSimulation host s2 progress deltaTime b).returned
            ∧ ((updateSimulation host s1 progress deltaTime b).isNormal = true →
                updateSimulation host s1 progress deltaTime b
                  = updateSimulation host s2 progress deltaTime b)
            ∧ ∀ env, s1.currentEnvironment = some (.entry env) →
                ∃ s3 : PhysicsEngine,
                  updateSimulation host s1 progress deltaTime b
                    = .normal s3 s3.simulationData
                  ∧ s3.simulationData.warnings
                    = generateWarnings env s3.simulationData.temperature
                        s3.simulationData.fuel s3.simulationData.damage
                        s3.simulationData.speed)
      ∧ (s1.rocket = none →
          updateSimulation host s1 progress deltaTime b = .normal s1 s1.simulationData) := by
  have hstate : (generateWarningsCall s1 temperature fuel damage speed).state = s1 := by
    unfold generateWarningsCall
    cases s1.currentEnvironment with
    | none => rfl
    | some ref => cases ref <;> rfl
  refine ⟨hstate, by rw [hstate], ?_, ?_⟩
  · intro body hr
    obtain ⟨h1, h2⟩ :=
      updateSimulation_congr_of_rocket host s1 s2 body progress deltaTime b hd hr
    refine ⟨h1, h2, ?_⟩
    intro env he
    obtain ⟨s3, e1, _, _, _, _, _, _, _, _, e10⟩ :=
      updateSimulation_of_rocket host s1 env body progress deltaTime b he hr
    exact ⟨s3, e1, e10⟩
  · intro hr
    exact updateSimulation_of_no_rocket host s1 progress deltaTime b hr

/-- Instance of C16 (amended): an Ay session with the Mini CubeSat preset before its first
tick (no stored warnings) and after a tick at progress 193/300 with no elapsed time (the
radiation warning is stored) differ only in the stored warnings, and the next tick returns
the same snapshot from both. -/
theorem warnings_recomputed_with_rocket_witness :
    DifferOnlyInWarnings (sessionOf "Ay" miniCubeSat)
          (updateSimulation restHost (sessionOf "Ay" miniCubeSat) (193 / 300) 0 false).state
      ∧ (sessionOf "Ay" miniCubeSat).simulationData.warnings = []
      ∧ (updateSimulation restHost (sessionOf "Ay" miniCubeSat) (193 / 300) 0
            false).state.simulationData.warnings = [radiationWarning]
      ∧ (updateSimulation restHost (sessionOf "Ay" miniCubeSat) (1 / 2) 1 true).returned
        = (updateSimulation restHost
            (updateSimulation restHost (sessionOf "Ay" miniCubeSat) (193 / 300) 0
              false).state (1 / 2) 1 true).returned := by
  obtain ⟨_, he, hd, hr⟩ := sessionOf_miniCubeSat "Ay" envAy environments_Ay
  obtain ⟨s2, e1, e2, e3, e4, e5, e6, e7, e8, e9, e10⟩ :=
    updateSimulation_of_rocket restHost (sessionOf "Ay" miniCubeSat) envAy _ (193 / 300) 0
      false he hr
  have hv : velocityMagnitude restHost
      (movedRocket restHost (sessionOf "Ay" miniCubeSat)
        { mass := 1.3, frictionAir := some (envAy.atmosphere * 0.001),
          position := { x := 400, y := 300 }, velocity := { x := 0, y := 0 },
          thrust := some 0.1, fuelCapacity := 100, currentFuel := 100,
          material := "Alüminyum", hasControlSystem := false } 0) = 0 := by
    have h0 : (0 : ℚ) ^ 2 + 0 ^ 2 = 0 * 0 := by norm_num
    simp only [velocityMagnitude, movedRocket, restHost, hr, h0, Rat.sqrt_eq]
    norm_num
  have hmoved : movedRocket restHost (sessionOf "Ay" miniCubeSat)
        { mass := 1.3, frictionAir := some (envAy.atmosphere * 0.001),
          position := { x := 400, y := 300 }, velocity := { x := 0, y := 0 },
          thrust := some 0.1, fuelCapacity := 100, currentFuel := 100,
          material := "Alüminyum", hasControlSystem := false } 0
      = { mass := 1.3, frictionAir := some (envAy.atmosphere * 0.001),
          position := { x := 400, y := 300 }, velocity := { x := 0, y := 0 },
          thrust := some 0.1, fuelCapacity := 100, currentFuel := 100,
          material := "Alüminyum", hasControlSystem := false } := by
    simp only [movedRocket, restHost, hr]
  have hspeed : s2.simulationData.speed = 0 := by
    rw [e6, hv]; norm_num
  have htemp : s2.simulationData.temperature = 20 := by
    rw [e7]
    simp only [calculateTemperature, envAy, truthyNum]
    norm_num
  have hdam : s2.simulationData.damage = 0 := by
    rw [e9, calculateDamage_eq, mul_zero, hd]
    norm_num [PhysicsEngine.initial]
  have hwarn : s2.simulationData.warnings = [radiationWarning] := by
    rw [e10, htemp, e8, hdam, hspeed]
    exact generateWarnings_Ay_calm
  have hstate : (updateSimulation restHost (sessionOf "Ay" miniCubeSat) (193 / 300) 0
      false).state = s2 := by
    rw [e1]; rfl
  have hdiff : DifferOnlyInWarnings (sessionOf "Ay" miniCubeSat)
      (updateSimulation restHost (sessionOf "Ay" miniCubeSat) (193 / 300) 0 false).state := by
    rw [hstate]
    refine ⟨e4.symm, e5.symm, ?_, ?_, ?_, ?_, ?_, ?_⟩
    · rw [he, e2]
    · rw [hr, e3, hmoved]
    · rw [hspeed, hd]; rfl
    · rw [htemp, hd]; rfl
    · rw [e8, hd]; rfl
    · rw [hdam, hd]; rfl
  refine ⟨hdiff, by rw [hd]; rfl, by rw [hstate]; exact hwarn, ?_⟩
  exact ((warnings_recomputed_with_rocket restHost _ _ (1 / 2) 1 true 20 100 0 0
    hdiff).2.2.1 _ hr).1

/-- C15, as stated, fails in the arithmetic of the code.  For a rocket at rest in Boşluk
at temperature 250, progress 1 and one second, the increment for Karbonfiber with a
control system is the double 0.46199999999999997, while 0.42 times the increment 1.1 of the
default material without control system is 0.462, as a double product and exactly.  In LEO
at temperature 160, progress 0 and 0.1 seconds the increment for Karbonfiber is the double
0.006, while 0.6 times the increment of the default material is 0.006000000000000001. -/
theorem scaling_rounding_counterexample :
    velocityMagnitudeDouble restHost restingRocket ≤ 100
      ∧ calculateDamageDouble restHost envBosluk
          { restingRocket with material := "Karbonfiber", hasControlSystem := true } 250 1 1
        = 2080663027845169 / 4503599627370496
      ∧ calculateDamageDouble restHost envBosluk restingRocket 250 1 1
        = 2476979795053773 / 2251799813685248
      ∧ mulDouble (roundToDouble 0.42)
          (calculateDamageDouble restHost envBosluk restingRocket 250 1 1)
        = 8322652111380677 / 18014398509481984
      ∧ calculateDamageDouble restHost envBosluk
          { restingRocket with material := "Karbonfiber", hasControlSystem := true } 250 1 1
        ≠ mulDouble (roundToDouble 0.42)
            (calculateDamageDouble restHost envBosluk restingRocket 250 1 1)
      ∧ calculateDamageDouble restHost envBosluk
          { restingRocket with material := "Karbonfiber", hasControlSystem := true } 250 1 1
        ≠ 0.42 * calculateDamageDouble restHost envBosluk restingRocket 250 1 1
      ∧ calculateDamageDouble restHost envLEO
          { restingRocket with material := "Karbonfiber" } 160 0 (roundToDouble 0.1)
        = 3458764513820541 / 576460752303423488
      ∧ mulDouble (roundToDouble 0.6)
          (calculateDamageDouble restHost envLEO restingRocket 160 0 (roundToDouble 0.1))
        = 6917529027641083 / 1152921504606846976
      ∧ calculateDamageDouble restHost envLEO
          { restingRocket with material := "Karbonfiber" } 160 0 (roundToDouble 0.1)
        ≠ mulDouble (roundToDouble 0.6)
            (calculateDamageDouble restHost envLEO restingRocket 160 0 (roundToDouble 0.1)) := by
  decide!

/-- C17, as stated, fails in the arithmetic of the code.  In LEO at progress 0, for a
rocket with fuel, the temperature with the engine running is the double −106.999999999
and with the engine off the double −156.999999999; they differ by 50 + 2⁻⁴⁶, not by
50 + 0 × 100 = 50, because the atmosphere term is added to each and the two sums are
rounded separately. -/
theorem engine_heat_rounding_counterexample :
    0 < restingRocket.currentFuel
      ∧ calculateTemperatureDouble restHost envLEO restingRocket 0 true
        = -7529455626939679 / 70368744177664
      ∧ calculateTemperatureDouble restHost envLEO restingRocket 0 false
        = -345246651119465 / 2199023255552
      ∧ calculateTemperatureDouble restHost envLEO restingRocket 0 true
          - calculateTemperatureDouble restHost envLEO restingRocket 0 false
        = 50 + 1 / 70368744177664
      ∧ subDouble (calculateTemperatureDouble restHost envLEO restingRocket 0 true)
          (calculateTemperatureDouble restHost envLEO restingRocket 0 false)
        ≠ addDouble 50 (mulDouble 0 100) := by
  decide!

/-- C15, amended: with raw speed at most 100, for every temperature, progress, elapsed
time and environment, `calculateDamage` scales the damage rate, not the increment: the
rate summed from the thermal and the radiation term, which is the same for every material
and control-system flag, is multiplied by 0.6 for Karbonfiber or by 0.8 for Kompozit, then
by 0.7 when there is a control system, and last by the elapsed time, each product being
rounded to a double; so Karbonfiber with a control system gives
((rate × 0.6) × 0.7) × elapsed time.  In exact arithmetic this makes the increment 0.6,
0.8, 0.7 and 0.42 times the increment it is compared with. -/
theorem material_and_control_scale_the_rate (host : Host) (env : Environment)
    (rocket : Rocket) (material : String) (temperature progress deltaTime : ℚ)
    (h1 : material ≠ "Karbonfiber") (h2 : material ≠ "Kompozit") :
    (velocityMagnitudeDouble host rocket ≤ 100 →
        calculateDamageDouble host env
            { rocket with material := material, hasControlSystem := false }
            temperature progress deltaTime
          = mulDouble (unscaledRateDouble env temperature progress) deltaTime
        ∧ calculateDamageDouble host env
            { rocket with material := "Karbonfiber", hasControlSystem := false }
            temperature progress deltaTime
          = mulDouble
              (mulDouble (unscaledRateDouble env temperature progress) (roundToDouble 0.6))
              deltaTime
        ∧ calculateDamageDouble host env
            { rocket with material := "Kompozit", hasControlSystem := false }
            temperature progress deltaTime
          = mulDouble
              (mulDouble (unscaledRateDouble env temperature progress) (roundToDouble 0.8))
              deltaTime
        ∧ calculateDamageDouble host env
            { rocket with material := material, hasControlSystem := true }
            temperature progress deltaTime
          = mulDouble
              (mulDouble (unscaledRateDouble env temperature progress) (roundToDouble 0.7))
              deltaTime
        ∧ calculateDamageDouble host env
            { rocket with material := "Karbonfiber", hasControlSystem := true }
            temperature progress deltaTime
          = mulDouble
              (mulDouble
                (mulDouble (unscaledRateDouble env temperature progress)
                  (roundToDouble 0.6))
                (roundToDouble 0.7))
              deltaTime
        ∧ calculateDamageDouble host env
            { rocket with material := "Kompozit", hasControlSystem := true }
            temperature progress deltaTime
          = mulDouble
              (mulDouble
                (mulDouble (unscaledRateDouble env temperature progress)
                  (roundToDouble 0.8))
                (roundToDouble 0.7))
              deltaTime)
      ∧ (velocityMagnitude host rocket ≤ 100 →
        (∀ control : Bool,
            calculateDamage host env
                { rocket with material := "Karbonfiber", hasControlSystem := control }
                temperature progress deltaTime
              = 0.6 * calculateDamage host env
                  { rocket with material := material, hasControlSystem := control }
                  temperature progress deltaTime
            ∧ calculateDamage host env
                { rocket with material := "Kompozit", hasControlSystem := control }
                temperature progress deltaTime
              = 0.8 * calculateDamage host env
                  { rocket with material := material, hasControlSystem := control }
                  temperature progress deltaTime)
          ∧ (∀ anyMaterial : String,
            calculateDamage host env
                { rocket with material := anyMaterial, hasControlSystem := true }
                temperature progress deltaTime
              = 0.7 * calculateDamage host env
                  { rocket with material := anyMaterial, hasControlSystem := false }
                  temperature progress deltaTime)
          ∧ calculateDamage host env
              { rocket with material := "Karbonfiber", hasControlSystem := true }
              temperature progress deltaTime
            = 0.42 * calculateDamage host env
                { rocket with material := material, hasControlSystem := false }
                temperature progress deltaTime) := by
  constructor
  · intro hv
    have hK : ¬ ("Kompozit" = "Karbonfiber") := by decide
    refine ⟨?_, ?_, ?_, ?_, ?_, ?_⟩
    · rw [calculateDamageDouble_with host env rocket _ _ _ _ _ hv]
      simp only [h1, h2, if_false, Bool.false_eq_true]
    · rw [calculateDamageDouble_with host env rocket _ _ _ _ _ hv]
      simp only [if_true, if_false, Bool.false_eq_true]
    · rw [calculateDamageDouble_with host env rocket _ _ _ _ _ hv]
      simp only [hK, if_true, if_false, Bool.false_eq_true]
    · rw [calculateDamageDouble_with host env rocket _ _ _ _ _ hv]
      simp only [h1, h2, if_true, if_false]
    · rw [calculateDamageDouble_with host env rocket _ _ _ _ _ hv]
      simp only [if_true]
    · rw [calculateDamageDouble_with host env rocket _ _ _ _ _ hv]
      simp only [hK, if_true, if_false]
  · intro hv
    exact calculateDamage_scaling_exact host env rocket material temperature progress
      deltaTime h1 h2 hv

/-- Instance of C15 (amended): a rocket at rest in Boşluk at temperature 250, progress 1,
for one second.  The rate is the double 1.1; Karbonfiber with a control system gives the
double 0.46199999999999997, which is ((1.1 × 0.6) × 0.7) × 1 with every product
rounded. -/
theorem material_and_control_scale_the_rate_witness :
    velocityMagnitudeDouble restHost restingRocket ≤ 100
      ∧ unscaledRateDouble envBosluk 250 1 = 2476979795053773 / 2251799813685248
      ∧ calculateDamageDouble restHost envBosluk
          { restingRocket with material := "Karbonfiber", hasControlSystem := true } 250 1 1
        = mulDouble
            (mulDouble (mulDouble (unscaledRateDouble envBosluk 250 1) (roundToDouble 0.6))
              (roundToDouble 0.7))
            1
      ∧ mulDouble
          (mulDouble (mulDouble (unscaledRateDouble envBosluk 250 1) (roundToDouble 0.6))
            (roundToDouble 0.7))
          1
        = 2080663027845169 / 4503599627370496
      ∧ velocityMagnitude restHost restingRocket ≤ 100
      ∧ calculateDamage restHost envBosluk
          { restingRocket with material := "Karbonfiber", hasControlSystem := true } 250 1 1
        = 0.42 * calculateDamage restHost envBosluk
            { restingRocket with material := "Alüminyum", hasControlSystem := false }
            250 1 1 := by
  have hv : velocityMagnitudeDouble restHost restingRocket ≤ 100 := by
    rw [velocityMagnitudeDouble_restingRocket]; norm_num
  have hv2 : velocityMagnitude restHost restingRocket ≤ 100 := by
    rw [velocityMagnitude_restingRocket]; norm_num
  have h := material_and_control_scale_the_rate restHost envBosluk restingRocket
    "Alüminyum" 250 1 1 (by decide) (by decide)
  exact ⟨hv, by decide!, (h.1 hv).2.2.2.2.1, by decide!, hv2, (h.2 hv2).2.2⟩

/-- C17, amended: for every environment and progress, with fuel in the rocket and the
engine running `calculateTemperature` adds 50 + progress × 100 to the interpolated base
temperature before the solar and the atmosphere term are added, and with the engine off
it adds nothing there; so in exact arithmetic the first result exceeds the second by
exactly 50 + progress × 100, and in the doubles of the code it is the rounded sum of the
second and 50 + progress × 100 whenever neither later term applies (no orbital velocity,
atmosphere 0).  When the fuel is at most 0 the flag makes no difference to the
temperature returned. -/
theorem engine_heat_is_added_to_the_base (host : Host) (env : Environment) (rocket : Rocket)
    (progress : ℚ) :
    (rocket.currentFuel ≤ 0 →
        calculateTemperatureDouble host env rocket progress true
          = calculateTemperatureDouble host env rocket progress false
        ∧ calculateTemperature host env rocket progress true
          = calculateTemperature host env rocket progress false)
      ∧ (0 < rocket.currentFuel →
        calculateTemperatureDouble host env rocket progress true
          = laterTermsDouble host env progress
              (addDouble (baseTemperatureDouble env progress)
                (addDouble 50 (mulDouble progress 100)))
        ∧ calculateTemperatureDouble host env rocket progress false
          = laterTermsDouble host env progress (baseTemperatureDouble env progress)
        ∧ (truthyNum env.orbitalVelocity = false → roundToDouble env.atmosphere ≤ 0 →
            calculateTemperatureDouble host env rocket progress true
              = addDouble (calculateTemperatureDouble host env rocket progress false)
                  (addDouble 50 (mulDouble progress 100)))
        ∧ calculateTemperature host env rocket progress true
          = calculateTemperature host env rocket progress false + (50 + progress * 100)) := by
  constructor
  · intro hf
    refine ⟨?_, (calculateTemperature_engine_exact host env rocket progress).2 hf⟩
    simp only [calculateTemperatureDouble, gt_iff_lt, not_lt.mpr hf, and_false, if_false,
      Bool.false_eq_true, false_and]
  · intro hf
    have hon : calculateTemperatureDouble host env rocket progress true
        = laterTermsDouble host env progress
            (addDouble (baseTemperatureDouble env progress)
              (addDouble 50 (mulDouble progress 100))) := by
      simp only [calculateTemperatureDouble, laterTermsDouble, baseTemperatureDouble,
        gt_iff_lt, hf, and_self, if_true]
    have hoff : calculateTemperatureDouble host env rocket progress false
        = laterTermsDouble host env progress (baseTemperatureDouble env progress) := by
      simp only [calculateTemperatureDouble, laterTermsDouble, baseTemperatureDouble,
        gt_iff_lt, Bool.false_eq_true, false_and, if_false]
    refine ⟨hon, hoff, ?_, (calculateTemperature_engine_exact host env rocket progress).1 hf⟩
    intro ho ha
    rw [hon, hoff]
    simp only [laterTermsDouble, ho, Bool.false_eq_true, if_false, gt_iff_lt,
      not_lt.mpr ha]

/-- Instances of C17 (amended).  In Ay at progress 1/2, where no later term applies, the
code returns 77 with the engine running and −23 with it off, and 77 is the rounded sum of
−23 and 50 + 1/2 × 100; with an empty tank the flag makes no difference. -/
theorem engine_heat_is_added_to_the_base_witness :
    0 < restingRocket.currentFuel
      ∧ truthyNum envAy.orbitalVelocity = false ∧ roundToDouble envAy.atmosphere ≤ 0
      ∧ calculateTemperatureDouble restHost envAy restingRocket (1 / 2) true = 77
      ∧ calculateTemperatureDouble restHost envAy restingRocket (1 / 2) false = -23
      ∧ calculateTemperatureDouble restHost envAy restingRocket (1 / 2) true
        = addDouble (calculateTemperatureDouble restHost envAy restingRocket (1 / 2) false)
            (addDouble 50 (mulDouble (1 / 2) 100))
      ∧ calculateTemperatureDouble restHost envAy { restingRocket with currentFuel := 0 }
          (1 / 2) true
        = calculateTemperatureDouble restHost envAy { restingRocket with currentFuel := 0 }
          (1 / 2) false := by
  have hf : 0 < restingRocket.currentFuel := by norm_num [restingRocket]
  have ho : truthyNum envAy.orbitalVelocity = false := rfl
  have ha : roundToDouble envAy.atmosphere ≤ 0 := by decide!
  have h := (engine_heat_is_added_to_the_base restHost envAy restingRocket (1 / 2)).2 hf
  have hempty := ((engine_heat_is_added_to_the_base restHost envAy
    { restingRocket with currentFuel := 0 } (1 / 2)).1 (le_refl _)).1
  exact ⟨hf, ho, ha, by decide!, by decide!, h.2.2.1 ho ha, hempty⟩

end Impactsim
